import Mathlib

/-!
# Verification of the Sui transaction classification and translation engine

Shallow embedding of the pure core of the `sui-explainer` repository:

* `src/lib/backend/services/enhancedService.ts` (namespace `Enhanced` below)
* `src/lib/services/translationService.ts`      (namespace `TS` below)
* shared helpers from `src/lib/utils/formatting.ts`

Modelling conventions:

* JavaScript numbers holding integral MIST / gas amounts are modelled as `Int`
  (the code parses decimal strings with `parseInt(s) || 0`; well-formed decimal
  strings are assumed, so the parse result is the integer itself).
* JavaScript number division and `toFixed` display formatting are modelled over
  `ℚ` (exact rational arithmetic stands in for IEEE doubles; no claim in scope
  depends on double rounding).
* `undefined`-able fields are `Option`; JS truthiness of strings is
  "`isSome` and non-empty", of numbers "`isSome` and non-zero".
* JS `Map` objects are association lists in insertion order (`mapSet` below
  mirrors `Map.set`: update in place, append fresh keys at the end).
* Fields of the raw RPC record that none of the embedded functions read are
  omitted from the structures.
-/

set_option maxHeartbeats 1000000

/-! ## JavaScript semantics helpers -/

/-- JS `a || b` on strings: `""` is falsy. -/
def orS (a b : String) : String := if a = "" then b else a

/-- JS `(opt as string) || dflt`: `undefined` and `""` fall through to `dflt`. -/
def jsStr (o : Option String) (dflt : String) : String := orS (o.getD "") dflt

/-- JS `(opt as number) || dflt`: `undefined` and `0` fall through to `dflt`. -/
def jsInt (o : Option Int) (dflt : Int) : Int :=
  match o with
  | some v => if v = 0 then dflt else v
  | none => dflt

/-- JS truthiness of a possibly-undefined string. -/
def truthyS (o : Option String) : Bool :=
  match o with
  | some s => s ≠ ""
  | none => false

/-- JS truthiness of a possibly-undefined number. -/
def truthyI (o : Option Int) : Bool :=
  match o with
  | some v => v ≠ 0
  | none => false

/-- `needle` is a prefix of `hay` (character lists). -/
def prefixOf : List Char → List Char → Bool
  | [], _ => true
  | _ :: _, [] => false
  | a :: ps, b :: ls => a == b && prefixOf ps ls

/-- `needle` occurs as a contiguous substring of `hay` (character lists). -/
def hasInfix : List Char → List Char → Bool
  | [], needle => prefixOf needle []
  | hay@(_ :: t), needle => prefixOf needle hay || hasInfix t needle

/-- JS `s.includes(sub)`. -/
def strIncludes (s sub : String) : Bool := hasInfix s.data sub.data

/-- JS `s.toLowerCase()` (ASCII, as used on type tags). -/
def lowerStr (s : String) : String := String.mk (s.data.map Char.toLower)

/-- JS `s.split('::')`, scanning left to right. -/
def splitOnColons : List Char → List (List Char)
  | [] => [[]]
  | ':' :: ':' :: t => [] :: splitOnColons t
  | c :: t =>
    match splitOnColons t with
    | [] => [[c]]
    | h :: r => (c :: h) :: r

/-- JS `s.split('::').pop()`: the last `::`-separated component. -/
def popSeg (s : String) : String := String.mk ((splitOnColons s.data).getLastD [])

/-- JS `s.slice(0, n)`. -/
def strTake (s : String) (n : Nat) : String := String.mk (s.data.take n)

/-- JS `s.slice(-n)`. -/
def strTakeRight (s : String) (n : Nat) : String :=
  String.mk (s.data.drop (s.data.length - n))

/-- MIST to SUI conversion, `mistAmount / 1_000_000_000` (formatting.ts). -/
def mistToSui (mistAmount : Int) : ℚ := (mistAmount : ℚ) / 1000000000

/-- JS `q.toFixed(d)`: fixed-point decimal rendering with rounding. -/
def toFixedQ (q : ℚ) (d : Nat) : String :=
  let n : ℤ := round (q * ((10 : ℚ) ^ d))
  let p : Nat := 10 ^ d
  let ip := n.natAbs / p
  let fp := n.natAbs % p
  let sign := if n < 0 then "-" else ""
  if d = 0 then sign ++ toString ip
  else
    let fs := toString fp
    let pad := String.mk (List.replicate (d - fs.length) '0')
    sign ++ toString ip ++ "." ++ pad ++ fs

/-- `truncateAddress` (formatting.ts / enhancedService.ts, default 6/4 split). -/
def truncateAddress (address : String) : String :=
  if address = "" || address.length ≤ 6 + 4 then address
  else strTake address 6 ++ "..." ++ strTakeRight address 4

/-- `formatGasFee` (formatting.ts). -/
def formatGasFee (gasFeeMist : Int) : String :=
  let suiAmount := mistToSui gasFeeMist
  if suiAmount < 1 / 1000 then toFixedQ (suiAmount * 1000000) 0 ++ " MIST"
  else toFixedQ suiAmount 6 ++ " SUI"

/-- `formatTimestamp` (formatting.ts) calls `Date.toLocaleString`, whose output
is locale/environment dependent and not embeddable; it is modelled as a
deterministic placeholder rendering of the millisecond timestamp.  No claim in
scope depends on timestamp formatting. -/
def formatTimestamp (timestampMs : Int) : String := "date:" ++ toString timestampMs

/-- JS `Array.forEach((x, index) => …)` / indexed mapping: pair every element
with its index, starting at `n`. -/
def enumFromIdx {α : Type _} : Nat → List α → List (Nat × α)
  | _, [] => []
  | n, a :: t => (n, a) :: enumFromIdx (n + 1) t

/-- Indexed enumeration from 0. -/
def enumIdx {α : Type _} (l : List α) : List (Nat × α) := enumFromIdx 0 l

/-! ## Raw transaction data model (`src/lib/sui/queries.ts`) -/

/-- `Owner` (queries.ts): the `Shared` variant is never read by the core. -/
structure Owner where
  addressOwner : Option String
  objectOwner : Option String
deriving Repr, DecidableEq

/-- JS `change.owner.AddressOwner || change.owner.ObjectOwner || ''`. -/
def ownerStr (o : Owner) : String :=
  orS (o.addressOwner.getD "") (orS (o.objectOwner.getD "") "")

/-- `BalanceChange` (queries.ts); `amount` is a decimal string, modelled as the
parsed integer. -/
structure BalanceChange where
  owner : Owner
  coinType : String
  amount : Int
deriving Repr, DecidableEq

/-- `ObjectChange` (queries.ts), restricted to the fields the core reads. -/
structure ObjectChange where
  type : String
  objectType : String
  objectId : String
deriving Repr, DecidableEq

/-- `SuiEvent` (queries.ts), restricted to the fields the core reads. -/
structure SuiEvent where
  packageId : String
  transactionModule : String
  sender : String
  type : String
deriving Repr, DecidableEq

/-- A JSON value appearing in a Move-call argument (only strings and numbers
are exercised by the embedded code paths). -/
inductive JsVal where
  | jstr (s : String)
  | jnum (n : Int)
deriving Repr, DecidableEq

/-- JS truthiness of a possibly-undefined JSON value. -/
def truthyV (o : Option JsVal) : Bool :=
  match o with
  | some (.jstr s) => s ≠ ""
  | some (.jnum n) => n ≠ 0
  | none => false

/-- JS `JSON.stringify` on the modelled values (escape-free strings). -/
def jsonStringify : JsVal → String
  | .jstr s => "\"" ++ s ++ "\""
  | .jnum n => toString n

/-- A raw Move-call argument record as read by `extractMoveCalls`. -/
structure MoveArgRaw where
  type : Option String
  value : Option JsVal
  objectId : Option JsVal
deriving Repr, DecidableEq

/-- The `MoveFunction` payload of a programmable-transaction command. -/
structure MoveFunctionCmd where
  package : Option String
  module : Option String
  function : Option String
  typeArguments : Option (List String)
  arguments : Option (List MoveArgRaw)
deriving Repr, DecidableEq

/-- The `TransferSui` payload as the code reads it (`recipient`, `amount`). -/
structure TransferSuiCmd where
  recipient : Option String
  amount : Option Int
deriving Repr, DecidableEq

/-- An object reference inside a `TransferObjects` payload. -/
structure ObjRefLite where
  objectId : String
deriving Repr, DecidableEq

/-- The `TransferObjects` payload as the code reads it. -/
structure TransferObjectsCmd where
  recipient : Option String
  objects : Option (List ObjRefLite)
deriving Repr, DecidableEq

/-- One command of a transaction.  The code reads both nested payloads
(`cmd.TransferSui.recipient`, …) and, in other branches, fields directly on the
command record (`cmd.recipients`, `cmd.amounts`, `cmd.recipient`,
`cmd.objects`); all are modelled as optional fields, `some` meaning the key is
present (with a truthy object value where the code truthiness-tests it). -/
structure TransactionCommand where
  transferSui : Option TransferSuiCmd
  transferObjects : Option TransferObjectsCmd
  pay : Option Unit
  paySui : Option Unit
  call : Option Unit
  moveFunction : Option MoveFunctionCmd
  recipients : Option (List String)
  amounts : Option (List Int)
  recipient : Option String
  objects : Option (List ObjRefLite)
deriving Repr, DecidableEq

/-- A completely absent command payload: every key missing. -/
def TransactionCommand.empty : TransactionCommand :=
  ⟨none, none, none, none, none, none, none, none, none, none⟩

/-- `TransactionInput` (queries.ts), restricted to the read fields. -/
structure TransactionInput where
  objectId : Option String
  coinType : Option String
  value : Option Int
deriving Repr, DecidableEq

/-- The inner `transaction` record: kind plus optional command/input lists. -/
structure TxData where
  kind : String
  inputs : Option (List TransactionInput)
  transactions : Option (List TransactionCommand)
deriving Repr, DecidableEq

/-- `transaction.data`: sender plus the transaction shape. -/
structure TxDataOuter where
  sender : String
  transaction : TxData
deriving Repr, DecidableEq

/-- The outer `transaction` wrapper. -/
structure TransactionBlock where
  data : TxDataOuter
deriving Repr, DecidableEq

/-- Effects `status` record. -/
structure StatusRec where
  status : String
  error : Option String
deriving Repr, DecidableEq

/-- Effects `gasUsed` record (decimal strings modelled as parsed integers). -/
structure GasUsedRec where
  computationCost : Int
  storageCost : Int
  storageRebate : Int
  nonRefundableStorageFee : Int
deriving Repr, DecidableEq

/-- Effects record; the code guards every access with `?.`, so both the record
and its `status`/`gasUsed` members are modelled as optional. -/
structure EffectsRec where
  status : Option StatusRec
  gasUsed : Option GasUsedRec
deriving Repr, DecidableEq

/-- `SuiTransactionResponse` (queries.ts), restricted to the fields the
classification/translation core reads. -/
structure SuiTransactionResponse where
  digest : String
  transaction : TransactionBlock
  effects : Option EffectsRec
  events : Option (List SuiEvent)
  objectChanges : Option (List ObjectChange)
  balanceChanges : Option (List BalanceChange)
  timestampMs : Option Int
deriving Repr, DecidableEq

/-- `tx.effects?.status?.status` as a possibly-undefined string. -/
def rawStatus (tx : SuiTransactionResponse) : Option String :=
  (tx.effects.bind (·.status)).map (·.status)

/-- `tx.effects?.status?.status || 'unknown'`. -/
def statusStr (tx : SuiTransactionResponse) : String :=
  jsStr (rawStatus tx) "unknown"

/-- `tx.effects?.gasUsed`. -/
def gasUsedOpt (tx : SuiTransactionResponse) : Option GasUsedRec :=
  tx.effects.bind (·.gasUsed)

/-- `parseInt(gasUsed.computationCost) || 0` with the `|| {computationCost:'0',…}`
record default. -/
def gasComp (tx : SuiTransactionResponse) : Int :=
  ((gasUsedOpt tx).map (·.computationCost)).getD 0

/-- Storage cost with defaults, as `gasComp`. -/
def gasStor (tx : SuiTransactionResponse) : Int :=
  ((gasUsedOpt tx).map (·.storageCost)).getD 0

/-- Storage rebate with defaults, as `gasComp`. -/
def gasReb (tx : SuiTransactionResponse) : Int :=
  ((gasUsedOpt tx).map (·.storageRebate)).getD 0

/-- Non-refundable storage fee with defaults, as `gasComp`. -/
def gasNonRef (tx : SuiTransactionResponse) : Int :=
  ((gasUsedOpt tx).map (·.nonRefundableStorageFee)).getD 0

/-! ## Output data model (`src/types/visualization.ts`) -/

/-- `TransactionType`: the 8 enumerated transaction type labels. -/
inductive TransactionType where
  | buy | sell | swap | transfer | mint | burn | call | unknown
deriving Repr, DecidableEq

/-- `FlowNode`, restricted to fields the two builders set.  (The source field
`annotation` is renamed `annot` here.) -/
structure FlowNode where
  id : String
  type : String
  label : String
  address : Option String
  truncated : Option String
  package : Option String
  module : Option String
  annot : Option String
deriving Repr, DecidableEq

/-- `FlowEdge`. -/
structure FlowEdge where
  id : String
  source : String
  target : String
  label : Option String
  type : String
  animated : Option Bool
deriving Repr, DecidableEq

/-- `TransactionStep` kind tag. -/
inductive StepType where
  | input | output | action | transfer
deriving Repr, DecidableEq

/-- `TransactionStep` asset kind tag. -/
inductive AssetType where
  | sui | token | nft | object
deriving Repr, DecidableEq

/-- `TransactionStep`. -/
structure TransactionStep where
  id : String
  type : StepType
  title : String
  description : String
  from? : Option String
  to? : Option String
  amount : Option String
  asset : Option String
  assetType : Option AssetType
  details : Option String
deriving Repr, DecidableEq

/-- `GasInfo`. -/
structure GasInfo where
  gasUsed : Int
  gasFee : Int
  gasFeeUSD : ℚ
  storageRebate : Int
  netGasFee : Int
deriving Repr, DecidableEq

/-- `FinancialAsset`. -/
structure FinancialAsset where
  coinType : String
  symbol : String
  name : String
  amount : ℚ
  valueUSD : Option ℚ
deriving Repr, DecidableEq

/-- `FinancialSummary`. -/
structure FinancialSummary where
  type : TransactionType
  typeDescription : String
  primaryAsset : Option FinancialAsset
  secondaryAsset : Option FinancialAsset
  totalValueUSD : Option ℚ
  isIncoming : Bool
deriving Repr, DecidableEq

/-- A recipient entry as collected by the `getRecipients` functions. -/
structure RecipientRec where
  address : String
  amount : Option String
  objectId : Option String
deriving Repr, DecidableEq

/-- `TranslatedAddress`. -/
structure TranslatedAddress where
  address : String
  truncated : String
  type : String
deriving Repr, DecidableEq

/-- `TranslatedAsset` (fields set by `extractAssets`). -/
structure TranslatedAsset where
  type : String
  name : String
  symbol : Option String
  amount : ℚ
  coinType : String
deriving Repr, DecidableEq

/-- A rendered Move-call argument (`MoveArgument`). -/
structure MoveArgument where
  type : String
  value : String
  plainEnglish : String
deriving Repr, DecidableEq

/-- `MoveCallInfo`. -/
structure MoveCallInfo where
  package : String
  module : String
  function : String
  description : String
  plainEnglish : String
  arguments : List MoveArgument
  typeArguments : Option (List String)
deriving Repr, DecidableEq

/-- `TranslatedObject`. -/
structure TranslatedObject where
  objectId : String
  type : String
  category : String
  operation : String
deriving Repr, DecidableEq

/-- `TranslatedEvent`. -/
structure TranslatedEvent where
  type : String
  sender : String
  module : String
  description : String
  plainEnglish : String
deriving Repr, DecidableEq

/-- `ObjectStats`. -/
structure ObjectStats where
  created : Nat
  modified : Nat
  deleted : Nat
  transferred : Nat
deriving Repr, DecidableEq

/-- The record of a known Move function in `MOVE_FUNCTION_DESCRIPTIONS`. -/
structure FuncDesc where
  description : String
  plainEnglish : String
  action : String
deriving Repr, DecidableEq

/-! ## Enhanced service (`src/lib/backend/services/enhancedService.ts`) -/

namespace Enhanced

/-- `BalanceAnalysis` (enhancedService.ts). -/
structure BalanceAnalysis where
  suiChange : Int
  tokenChanges : List (String × Int)
  hasIncoming : Bool
  hasOutgoing : Bool
  uniqueCoinTypes : Nat
  senderBalanceChange : Int
deriving Repr, DecidableEq

/-- `ObjectAnalysis` (enhancedService.ts). -/
structure ObjectAnalysis where
  created : Nat
  deleted : Nat
  mutated : Nat
  transferred : Nat
  isNftCreation : Bool
  isTokenMint : Bool
  isTokenBurn : Bool
deriving Repr, DecidableEq

/-- `EventAnalysis` (enhancedService.ts). -/
structure EventAnalysis where
  eventTypes : List String
  isSwapEvent : Bool
  isMintEvent : Bool
  isBurnEvent : Bool
  protocol : Option String
deriving Repr, DecidableEq

/-- JS `Map.get(k) || 0`. -/
def mapGetD (m : List (String × Int)) (k : String) : Int :=
  match m.find? (fun p => p.1 == k) with
  | some p => p.2
  | none => 0

/-- JS `Map.set(k, v)`: replace in place, append fresh keys at the end. -/
def mapSet : List (String × Int) → String → Int → List (String × Int)
  | [], k, v => [(k, v)]
  | (k', v') :: t, k, v =>
    if k' == k then (k, v) :: t else (k', v') :: mapSet t k v

/-- Mutable state of the `analyzeBalanceChanges` loop. -/
structure BCState where
  suiChange : Int
  tokenChanges : List (String × Int)
  hasIncoming : Bool
  hasOutgoing : Bool
  senderBalanceChange : Int
deriving Repr, DecidableEq

/-- One iteration of the `analyzeBalanceChanges` loop body. -/
def bcStep (sender : String) (st : BCState) (change : BalanceChange) : BCState :=
  let amount := change.amount
  let owner := ownerStr change.owner
  let coinType := change.coinType
  let isSender := owner == sender
  let st1 :=
    if coinType == "0x2::sui::SUI" || coinType == "SUI" then
      { st with
        suiChange := st.suiChange + amount
        senderBalanceChange :=
          if isSender then st.senderBalanceChange + amount else st.senderBalanceChange }
    else
      let existing := mapGetD st.tokenChanges coinType
      { st with
        tokenChanges := mapSet st.tokenChanges coinType (existing + amount)
        senderBalanceChange :=
          if isSender then st.senderBalanceChange + amount else st.senderBalanceChange }
  { st1 with
    hasIncoming := if amount > 0 then true else st1.hasIncoming
    hasOutgoing := if amount < 0 then true else st1.hasOutgoing }

/-- `analyzeBalanceChanges` (enhancedService.ts lines 93–132). -/
def analyzeBalanceChanges (tx : SuiTransactionResponse) : BalanceAnalysis :=
  let balanceChanges := tx.balanceChanges.getD []
  let sender := tx.transaction.data.sender
  let st := balanceChanges.foldl (bcStep sender) ⟨0, [], false, false, 0⟩
  { suiChange := st.suiChange
    tokenChanges := st.tokenChanges
    hasIncoming := st.hasIncoming
    hasOutgoing := st.hasOutgoing
    uniqueCoinTypes := st.tokenChanges.length + 1
    senderBalanceChange := st.senderBalanceChange }

/-- One iteration of the `analyzeObjectChanges` loop body. -/
def ocStep (st : ObjectAnalysis) (change : ObjectChange) : ObjectAnalysis :=
  if change.type == "created" then
    let typeLower := lowerStr change.objectType
    { st with
      created := st.created + 1
      isNftCreation :=
        if strIncludes typeLower "nft" || strIncludes typeLower "collectible" ||
            strIncludes typeLower "cap::" || strIncludes typeLower "supply" ||
            strIncludes typeLower "treasury" then true else st.isNftCreation
      isTokenMint :=
        if strIncludes typeLower "nft" || strIncludes typeLower "collectible" ||
            strIncludes typeLower "cap::" || strIncludes typeLower "supply" ||
            strIncludes typeLower "treasury" then true else st.isTokenMint }
  else if change.type == "deleted" then
    let deletedType := lowerStr change.objectType
    { st with
      deleted := st.deleted + 1
      isTokenBurn :=
        if strIncludes deletedType "burn" || strIncludes deletedType "treasury" ||
            strIncludes deletedType "cap::" then true else st.isTokenBurn }
  else if change.type == "mutated" then { st with mutated := st.mutated + 1 }
  else if change.type == "transferred" then { st with transferred := st.transferred + 1 }
  else st

/-- `analyzeObjectChanges` (enhancedService.ts lines 138–192). -/
def analyzeObjectChanges (tx : SuiTransactionResponse) : ObjectAnalysis :=
  (tx.objectChanges.getD []).foldl ocStep ⟨0, 0, 0, 0, false, false, false⟩

/-- One iteration of the `analyzeEvents` loop body. -/
def evStep (st : EventAnalysis) (event : SuiEvent) : EventAnalysis :=
  let eventType := lowerStr event.type
  let st := { st with eventTypes := st.eventTypes ++ [event.type] }
  let st :=
    if strIncludes eventType "swap" || strIncludes eventType "exchange" ||
        strIncludes eventType "pool" || strIncludes eventType "tick" ||
        strIncludes eventType "order" then { st with isSwapEvent := true } else st
  let st :=
    if strIncludes eventType "mint" || strIncludes eventType "new_coin" ||
        strIncludes eventType "coin_added" then { st with isMintEvent := true } else st
  let st :=
    if strIncludes eventType "burn" || strIncludes eventType "coin_removed" then
      { st with isBurnEvent := true } else st
  if event.packageId ≠ "" then
    if strIncludes (lowerStr event.transactionModule) "deepbook" then
      { st with protocol := some "DeepBook" }
    else if strIncludes (lowerStr event.transactionModule) "cetus" then
      { st with protocol := some "Cetus" }
    else if strIncludes (lowerStr event.transactionModule) "turbo" then
      { st with protocol := some "Turbos" }
    else st
  else st

/-- `analyzeEvents` (enhancedService.ts lines 197–250). -/
def analyzeEvents (tx : SuiTransactionResponse) : EventAnalysis :=
  (tx.events.getD []).foldl evStep ⟨[], false, false, false, none⟩

/-- `isSwapPattern` (enhancedService.ts lines 271–281). -/
def isSwapPattern (balance : BalanceAnalysis) : Bool :=
  if balance.uniqueCoinTypes < 2 then false
  else if !balance.hasIncoming || !balance.hasOutgoing then false
  else true

/-- `isBuyPattern` (enhancedService.ts lines 288–297). -/
def isBuyPattern (balance : BalanceAnalysis) : Bool :=
  if !balance.hasOutgoing then false
  else if !balance.hasIncoming then false
  else balance.uniqueCoinTypes == 1

/-- `isSellPattern` (enhancedService.ts lines 304–313). -/
def isSellPattern (balance : BalanceAnalysis) : Bool :=
  if !balance.hasIncoming then false
  else if !balance.hasOutgoing then false
  else balance.uniqueCoinTypes == 1

/-- Loop of `isDirectSuiTransfer`: the first command matching either pattern
causes a `return`; otherwise the loop continues. -/
def directLoop : List TransactionCommand → Bool
  | [] => false
  | cmd :: rest =>
    if cmd.transferSui.isSome && cmd.transferObjects.isNone then true
    else if cmd.paySui.isSome && cmd.pay.isNone then
      match cmd.recipients with
      | some recipients => recipients.length == 1
      | none => false
    else directLoop rest

/-- `isDirectSuiTransfer` (enhancedService.ts lines 319–341). -/
def isDirectSuiTransfer (tx : SuiTransactionResponse) : Bool :=
  let txData := tx.transaction.data.transaction
  if txData.kind == "Single" && txData.transactions.isSome then
    directLoop (txData.transactions.getD [])
  else false

/-- The step-1 condition of `detectTransactionType`: mint signal with no
incoming balance. -/
def mintFires (tx : SuiTransactionResponse) : Bool :=
  let balance := analyzeBalanceChanges tx
  let objects := analyzeObjectChanges tx
  (objects.isTokenMint || objects.isNftCreation) && !balance.hasIncoming

/-- The step-2 condition of `detectTransactionType`: burn signal with no
outgoing balance, or `tx.balanceChanges?.length === 0` (false when the list is
absent, since `undefined === 0` is false in JS). -/
def burnFires (tx : SuiTransactionResponse) : Bool :=
  let balance := analyzeBalanceChanges tx
  let objects := analyzeObjectChanges tx
  objects.isTokenBurn &&
    (!balance.hasOutgoing ||
      (match tx.balanceChanges with
       | some l => l.length == 0
       | none => false))

/-- The step-3 condition of `detectTransactionType`: swap event or swap
balance pattern. -/
def swapFires (tx : SuiTransactionResponse) : Bool :=
  (analyzeEvents tx).isSwapEvent || isSwapPattern (analyzeBalanceChanges tx)

/-- `detectTransactionType` (enhancedService.ts lines 373–424).  The source's
`if (A) { if (B) return mint }` blocks fall through to the next check when the
inner guard fails, so each step is the conjunction of both guards, tested in
order. -/
def detectTransactionType (tx : SuiTransactionResponse) : TransactionType :=
  if mintFires tx then .mint
  else if burnFires tx then .burn
  else if swapFires tx then .swap
  else if isBuyPattern (analyzeBalanceChanges tx) then .buy
  else if isSellPattern (analyzeBalanceChanges tx) then .sell
  else if isDirectSuiTransfer tx then .transfer
  else .call

/-- `getSender` (enhancedService.ts). -/
def getSender (tx : SuiTransactionResponse) : String :=
  tx.transaction.data.sender

/-- Balance-change phase of `getRecipients`: push owners that are truthy
addresses distinct from the sender and not yet present. -/
def recipStep (sender : String) (acc : List RecipientRec) (change : BalanceChange) :
    List RecipientRec :=
  match change.owner.addressOwner with
  | some a =>
    if a ≠ "" && a ≠ sender then
      if (acc.find? (fun r => r.address == a)).isSome then acc
      else acc ++ [⟨a, some (toString change.amount), none⟩]
    else acc
  | none => acc

/-- `TransferSui` phase of `getRecipients`: push truthy recipients not yet
present, with amount `String(suiTransfer.amount || 0)`. -/
def suiRecipStep (acc : List RecipientRec) (cmd : TransactionCommand) :
    List RecipientRec :=
  match cmd.transferSui with
  | some suiTransfer =>
    match suiTransfer.recipient with
    | some recipient =>
      if recipient ≠ "" && (acc.find? (fun r => r.address == recipient)).isNone then
        acc ++ [⟨recipient, some (toString (jsInt suiTransfer.amount 0)), none⟩]
      else acc
    | none => acc
  | none => acc

/-- `getRecipients` (enhancedService.ts lines 511–541). -/
def getRecipients (tx : SuiTransactionResponse) : List RecipientRec :=
  let sender := getSender tx
  let phase1 := (tx.balanceChanges.getD []).foldl (recipStep sender) []
  let txData := tx.transaction.data.transaction
  if txData.kind == "Single" then
    (txData.transactions.getD []).foldl suiRecipStep phase1
  else phase1

/-- `getObjects` (enhancedService.ts lines 546–552).  The source returns bare
`{objectId, type, operation}` records; the `TranslatedObject` shape is reused
here with its (unread) `category` field set to the empty string. -/
def getObjects (tx : SuiTransactionResponse) :
    List TranslatedObject :=
  (tx.objectChanges.getD []).map fun change =>
    ⟨change.objectId, change.objectType, "", change.type⟩

/-- `MOVE_FUNCTION_DESCRIPTIONS` (enhancedService.ts lines 18–34). -/
def moveFuncDesc (name : String) : Option FuncDesc :=
  if name = "transfer" then
    some ⟨"Transfer an object", "transfers ownership of a digital asset", "transferred ownership"⟩
  else if name = "transfer_sui" then
    some ⟨"Transfer SUI coins", "sends SUI cryptocurrency", "sent SUI coins"⟩
  else if name = "pay" then
    some ⟨"Pay multiple recipients", "distributes coins to multiple recipients", "made payments"⟩
  else if name = "pay_sui" then
    some ⟨"Pay SUI to multiple", "sends SUI to multiple recipients", "sent SUI to multiple recipients"⟩
  else if name = "mint" then
    some ⟨"Mint new tokens or NFTs", "creates new tokens or NFTs", "created new tokens"⟩
  else if name = "burn" then
    some ⟨"Burn tokens", "permanently removes tokens from circulation", "burned tokens"⟩
  else if name = "swap" then
    some ⟨"Swap tokens on a DEX", "exchanges one type of token for another", "swapped tokens"⟩
  else if name = "add_liquidity" then
    some ⟨"Add liquidity to a pool", "adds funds to a liquidity pool", "added liquidity"⟩
  else if name = "remove_liquidity" then
    some ⟨"Remove liquidity from a pool", "withdraws funds from a liquidity pool", "removed liquidity"⟩
  else if name = "create" then
    some ⟨"Create a new object", "creates a new object on the blockchain", "created an object"⟩
  else if name = "update" then
    some ⟨"Update an object", "modifies an existing object", "updated an object"⟩
  else if name = "delete" then
    some ⟨"Delete an object", "removes an object from the blockchain", "deleted an object"⟩
  else if name = "claim" then
    some ⟨"Claim assets", "claims assets from a contract", "claimed assets"⟩
  else if name = "deposit" then
    some ⟨"Deposit assets", "deposits assets into a contract", "deposited assets"⟩
  else if name = "withdraw" then
    some ⟨"Withdraw assets", "withdraws assets from a contract", "withdrew assets"⟩
  else none

/-- `parseMoveCalls` (enhancedService.ts lines 557–594). -/
def parseMoveCalls (tx : SuiTransactionResponse) : List MoveCallInfo :=
  let txData := tx.transaction.data.transaction
  if txData.kind == "ProgrammableTransaction" && txData.transactions.isSome then
    (txData.transactions.getD []).filterMap fun cmd =>
      match cmd.moveFunction with
      | some moveCall =>
        let funcName := jsStr moveCall.function "unknown"
        let module := jsStr moveCall.module "unknown"
        let packageId := jsStr moveCall.package "unknown"
        let desc := moveFuncDesc funcName
        some
          { package := packageId
            module := module
            function := funcName
            description :=
              (desc.map (·.description)).getD ("Calls " ++ module ++ "." ++ funcName)
            plainEnglish :=
              (desc.map (·.plainEnglish)).getD
                ("Executes the " ++ module ++ "." ++ funcName ++ " function")
            arguments := []
            typeArguments := none }
      | none => none
  else []

/-- `generatePlainEnglish` (enhancedService.ts lines 599–680).  The unused
`blockberry` parameter is omitted. -/
def generatePlainEnglish (tx : SuiTransactionResponse) : String :=
  let sender := getSender tx
  let recipients := getRecipients tx
  let type := detectTransactionType tx
  let status := statusStr tx
  let senderTruncated := truncateAddress sender
  if status ≠ "success" then "This transaction failed."
  else
    let parts : List String :=
      match type with
      | .transfer =>
        let txData := tx.transaction.data.transaction
        let suiTransfer := ((txData.transactions.getD []).head?).bind (·.transferSui)
        let base :=
          match suiTransfer.bind (·.amount) with
          | some suiAmount =>
            if suiAmount > 0 then
              [senderTruncated ++ " sent " ++ toFixedQ (mistToSui suiAmount) 4 ++ " SUI"]
            else [senderTruncated ++ " sent SUI coins"]
          | none => [senderTruncated ++ " sent SUI coins"]
        if recipients.length > 0 then
          base ++ ["to " ++ String.intercalate " and "
            (recipients.map (fun r => truncateAddress r.address))]
        else base
      | .buy =>
        let base := [senderTruncated ++ " purchased assets"]
        if recipients.length > 0 then
          base ++ ["from " ++ String.intercalate " and "
            (recipients.map (fun r => truncateAddress r.address))]
        else base
      | .sell =>
        let base := [senderTruncated ++ " sold assets"]
        if recipients.length > 0 then
          base ++ ["to " ++ String.intercalate " and "
            (recipients.map (fun r => truncateAddress r.address))]
        else base
      | .swap => [senderTruncated ++ " swapped assets"]
      | .mint => [senderTruncated ++ " minted new tokens or NFTs"]
      | .burn => [senderTruncated ++ " burned tokens or NFTs"]
      | .call =>
        let moveCalls := parseMoveCalls tx
        match moveCalls.head? with
        | some firstCall =>
          match moveFuncDesc firstCall.function with
          | some desc => [senderTruncated ++ " " ++ desc.action]
          | none =>
            [senderTruncated ++ " executed " ++ firstCall.module ++ "." ++ firstCall.function]
        | none => [senderTruncated ++ " executed smart contract calls"]
      | .unknown => []
    match type with
    | .unknown => senderTruncated ++ " performed a transaction on the Sui blockchain."
    | _ =>
      let parts :=
        match gasUsedOpt tx with
        | some gasUsed =>
          let totalGas := gasUsed.computationCost + gasUsed.storageCost - gasUsed.storageRebate
          parts ++ [", paying " ++ toFixedQ (mistToSui totalGas) 6 ++ " SUI in gas fees"]
        | none => parts
      String.intercalate " " parts ++ "."

/-- `generateFlowNodes` (enhancedService.ts lines 1020–1103).  Node pushes in
source order: sender, initiation, verification, conditional processing,
confirmation, then (only when recipients exist) completion and one node per
recipient index. -/
def generateFlowNodes (tx : SuiTransactionResponse) : List FlowNode :=
  let sender := getSender tx
  let recipients := getRecipients tx
  let moveCalls := parseMoveCalls tx
  let status := statusStr tx
  let txKind := tx.transaction.data.transaction.kind
  [⟨"sender", "sender", "Sender", some sender, some (truncateAddress sender),
      none, none, none⟩,
   ⟨"initiation", "initiation", "Transaction Created", none, none, none, none,
      some "Digest & signatures"⟩,
   ⟨"verification", "verification", "Verification", none, none, none, none,
      some "Signature validated"⟩]
  ++ (if moveCalls.length > 0 then
        [⟨"processing", "processing", "Processing", none, none,
            (moveCalls.head?).map (·.package), (moveCalls.head?).map (·.module),
            some (toString moveCalls.length ++ " Move call(s)")⟩]
      else if txKind == "Single" then
        [⟨"processing", "processing", "Processing", none, none, none, none,
            some "Direct operation"⟩]
      else [])
  ++ [⟨"confirmation", "confirmation", "Confirmation", none, none, none, none,
        some (if status == "success" then "Status: Success" else "Status: Failed")⟩]
  ++ (if recipients.length > 0 then
        ⟨"completion", "completion", "Completion", none, none, none, none,
            some (toString recipients.length ++ " recipient(s)")⟩ ::
          (enumIdx recipients).map (fun p =>
            ⟨"recipient-" ++ toString p.1, "recipient", "Recipient",
              some p.2.address, some (truncateAddress p.2.address), none, none, none⟩)
      else [])

/-- The per-recipient transfer label of `generateFlowEdges`. -/
def transferLabelFor (type : TransactionType) : String :=
  if type = .transfer then "SUI tokens"
  else if type = .swap then "Swapped assets"
  else if type = .buy then "Purchased assets"
  else if type = .sell then "Payment received"
  else if type = .mint then "Minted tokens"
  else if type = .burn then "Burn confirmation"
  else if type = .call then "Contract result"
  else "Assets"

/-- `generateFlowEdges` (enhancedService.ts lines 1108–1188). -/
def generateFlowEdges (tx : SuiTransactionResponse) (type : TransactionType) :
    List FlowEdge :=
  let recipients := getRecipients tx
  let status := statusStr tx
  [⟨"sender-initiation", "sender", "initiation", some "Initiates transaction",
      "initiate", some true⟩,
   ⟨"initiation-verification", "initiation", "verification",
      some "Submit for validation", "verify", some true⟩,
   ⟨"verification-processing", "verification", "processing",
      some "Execute operations", "process", some true⟩,
   ⟨"processing-confirmation", "processing", "confirmation",
      some (if status == "success" then "Success" else "Failed"),
      (if status == "success" then "confirm" else "result"), some true⟩]
  ++ (if recipients.length > 0 then
        ⟨"confirmation-completion", "confirmation", "completion",
            some "Deliver result", "transfer", some true⟩ ::
          (enumIdx recipients).map (fun p =>
            ⟨"completion-recipient-" ++ toString p.1, "completion",
              "recipient-" ++ toString p.1, some (transferLabelFor type),
              "transfer", some true⟩)
      else [])

/-- The gas block of `translateTransaction` (enhancedService.ts lines
1200–1213) together with the `gasInfo` record it assigns (lines 1239–1245):
`gasUsed` is the computation cost alone, `gasFee = computation + storage`,
`netGasFee = gasFee - storageRebate`, `gasFeeUSD` is the constant 0. -/
def translateGasInfo (tx : SuiTransactionResponse) : GasInfo :=
  let computationCost := gasComp tx
  let storageCost := gasStor tx
  let storageRebate := gasReb tx
  let gasFee := computationCost + storageCost
  let netGasFee := gasFee - storageRebate
  { gasUsed := computationCost
    gasFee := gasFee
    gasFeeUSD := 0
    storageRebate := storageRebate
    netGasFee := netGasFee }

/-- The `transactionType` field assigned by `translateTransaction`
(enhancedService.ts lines 1197 and 1258): the classifier's result, computed
with no reference to the execution status. -/
def translateTransactionType (tx : SuiTransactionResponse) : TransactionType :=
  detectTransactionType tx

end Enhanced

/-! ## Translation service (`src/lib/services/translationService.ts`) -/

namespace TS

/-- `MOVE_FUNCTION_DESCRIPTIONS` (translationService.ts lines 25–111). -/
def moveFuncDesc (name : String) : Option FuncDesc :=
  if name = "transfer" then
    some ⟨"Transfer an object to another address",
      "This function transfers ownership of a digital asset to another user.",
      "transferred ownership of an asset"⟩
  else if name = "transfer_sui" then
    some ⟨"Transfer SUI coins",
      "This sends SUI cryptocurrency from one wallet to another.", "sent SUI coins"⟩
  else if name = "pay" then
    some ⟨"Pay multiple recipients",
      "This distributes coins to multiple recipients in a single transaction.",
      "made a payment to multiple recipients"⟩
  else if name = "pay_sui" then
    some ⟨"Pay SUI to multiple recipients",
      "This sends SUI coins to multiple recipients in one transaction.",
      "sent SUI to multiple recipients"⟩
  else if name = "mint" then
    some ⟨"Mint new tokens or NFTs",
      "This creates new tokens or NFTs, adding them to the blockchain.",
      "created new tokens or NFTs"⟩
  else if name = "burn" then
    some ⟨"Burn tokens", "This permanently removes tokens from circulation.",
      "permanently removed tokens"⟩
  else if name = "swap" then
    some ⟨"Swap tokens on a DEX",
      "This exchanges one type of token for another using a decentralized exchange.",
      "swapped tokens on a decentralized exchange"⟩
  else if name = "add_liquidity" then
    some ⟨"Add liquidity to a pool", "This adds funds to a liquidity pool for trading.",
      "added funds to a liquidity pool"⟩
  else if name = "remove_liquidity" then
    some ⟨"Remove liquidity from a pool", "This withdraws funds from a liquidity pool.",
      "withdrew funds from a liquidity pool"⟩
  else if name = "cancel_order" then
    some ⟨"Cancel a trading order",
      "This cancels a pending order on a decentralized exchange.",
      "cancelled a trading order"⟩
  else if name = "place_order" then
    some ⟨"Place a trading order",
      "This creates a new order on a decentralized exchange.", "placed a new trading order"⟩
  else if name = "create" then
    some ⟨"Create a new object", "This creates a new object on the blockchain.",
      "created a new object"⟩
  else if name = "update" then
    some ⟨"Update an object", "This modifies an existing object.", "updated an existing object"⟩
  else if name = "delete" then
    some ⟨"Delete an object", "This removes an object from the blockchain.",
      "deleted an object"⟩
  else if name = "claim" then
    some ⟨"Claim assets", "This claims assets from a contract or pool.", "claimed assets"⟩
  else if name = "deposit" then
    some ⟨"Deposit assets", "This deposits assets into a contract or pool.",
      "deposited assets"⟩
  else if name = "withdraw" then
    some ⟨"Withdraw assets", "This withdraws assets from a contract or pool.",
      "withdrew assets"⟩
  else none

/-- The local `detectTransactionType` (translationService.ts lines 134–154):
a structural shape label, not the 8-value enumeration. -/
def detectShape (tx : SuiTransactionResponse) : String :=
  let kind := tx.transaction.data.transaction.kind
  if kind = "ProgrammableTransaction" then "programmable"
  else if kind = "Single" then
    let txData := tx.transaction.data.transaction
    match txData.transactions with
    | some txs =>
      if txs.length > 0 then
        match txs.head? with
        | some firstTx =>
          if firstTx.transferSui.isSome then "transfer_sui"
          else if firstTx.transferObjects.isSome then "transfer_objects"
          else if firstTx.pay.isSome then "pay"
          else if firstTx.paySui.isSome then "pay_sui"
          else if firstTx.call.isSome then "call"
          else "unknown"
        | none => "unknown"
      else "unknown"
    | none => "unknown"
  else "unknown"

/-- `getSender` (translationService.ts). -/
def getSender (tx : SuiTransactionResponse) : String :=
  tx.transaction.data.sender

/-- `getDigest` (translationService.ts). -/
def getDigest (tx : SuiTransactionResponse) : String := tx.digest

/-- Balance-change phase of `getRecipients` (translationService.ts). -/
def recipStep (sender : String) (acc : List RecipientRec) (change : BalanceChange) :
    List RecipientRec :=
  match change.owner.addressOwner with
  | some a =>
    if a ≠ "" && a ≠ sender then
      if (acc.find? (fun r => r.address == a)).isSome then acc
      else acc ++ [⟨a, some (toString change.amount), none⟩]
    else acc
  | none => acc

/-- The `TransferSui` block of the `getRecipients` command loop. -/
def suiRecipPart (acc : List RecipientRec) (cmd : TransactionCommand) :
    List RecipientRec :=
  match cmd.transferSui with
  | some suiTransfer =>
    match suiTransfer.recipient with
    | some recipient =>
      if recipient ≠ "" && (acc.find? (fun r => r.address == recipient)).isNone then
        acc ++ [⟨recipient, some (toString (jsInt suiTransfer.amount 0)), none⟩]
      else acc
    | none => acc
  | none => acc

/-- The `TransferObjects` block of the `getRecipients` command loop: one
push-if-absent attempt per transferred object. -/
def objRecipPart (acc : List RecipientRec) (cmd : TransactionCommand) :
    List RecipientRec :=
  match cmd.transferObjects with
  | some objTransfer =>
    match objTransfer.recipient, objTransfer.objects with
    | some recipient, some objects =>
      if recipient ≠ "" then
        objects.foldl (fun acc obj =>
          if (acc.find? (fun r => r.address == recipient)).isNone then
            acc ++ [⟨recipient, none, some obj.objectId⟩]
          else acc) acc
      else acc
    | _, _ => acc
  | none => acc

/-- Command phase of `getRecipients`: both the `TransferSui` and
`TransferObjects` blocks run for each command (independent `if`s). -/
def cmdRecipStep (acc : List RecipientRec) (cmd : TransactionCommand) :
    List RecipientRec :=
  objRecipPart (suiRecipPart acc cmd) cmd

/-- `getRecipients` (translationService.ts lines 173–226). -/
def getRecipients (tx : SuiTransactionResponse) : List RecipientRec :=
  let sender := getSender tx
  let phase1 := (tx.balanceChanges.getD []).foldl (recipStep sender) []
  let txData := tx.transaction.data.transaction
  if txData.kind == "Single" then
    (txData.transactions.getD []).foldl cmdRecipStep phase1
  else phase1

/-- `getObjects` (translationService.ts lines 231–243).  As in the enhanced
service, the source's bare `{objectId, type, operation}` records are modelled
by `TranslatedObject` with the unread `category` field empty. -/
def getObjects (tx : SuiTransactionResponse) : List TranslatedObject :=
  (tx.objectChanges.getD []).map fun change =>
    ⟨change.objectId, change.objectType, "", change.type⟩

/-- `getAssetType` (translationService.ts lines 248–253). -/
def getAssetType (coinType : String) : AssetType :=
  let lower := lowerStr coinType
  if strIncludes lower "sui::sui" || lower = "0x2::sui::sui" then .sui
  else if strIncludes lower "nft" || strIncludes lower "collectible" then .nft
  else .token

/-- The `pay`/`pay_sui` branch of `generateTransactionSteps`: one step per
index with a truthy amount and recipient. -/
def payCmdSteps (sender senderLabel : String) (cmd : TransactionCommand) :
    List TransactionStep :=
  match cmd.recipients, cmd.amounts with
  | some recipients, some amounts =>
    (List.range recipients.length).filterMap fun i =>
      match amounts.get? i, recipients.get? i with
      | some amount, some recipient =>
        if amount ≠ 0 && recipient ≠ "" then
          some
            { id := "pay-" ++ toString i
              type := .transfer
              title := "Sent " ++ toFixedQ (mistToSui amount) 4 ++ " SUI"
              description := senderLabel ++ " sent " ++ toFixedQ (mistToSui amount) 4 ++
                " SUI to " ++ truncateAddress recipient
              from? := some sender
              to? := some recipient
              amount := some (toFixedQ (mistToSui amount) 4 ++ " SUI")
              asset := some "SUI"
              assetType := some .sui
              details := none }
        else none
      | _, _ => none
  | _, _ => []

/-- The `transfer_objects` branch of `generateTransactionSteps`: reads the
`recipient` and `objects` fields directly off the command record. -/
def transferObjectsCmdSteps (sender senderLabel : String) (cmd : TransactionCommand) :
    List TransactionStep :=
  match cmd.recipient, cmd.objects with
  | some recipient, some objects =>
    if recipient ≠ "" then
      (enumIdx objects).map fun p =>
        { id := "transfer-" ++ toString p.1
          type := .transfer
          title := "Transferred Object"
          description := senderLabel ++ " transferred an object to " ++
            truncateAddress recipient
          from? := some sender
          to? := some recipient
          amount := none
          asset := some p.2.objectId
          assetType := some .object
          details := some p.2.objectId }
    else []
  | _, _ => []

/-- One input of the `programmable` branch of `generateTransactionSteps`. -/
def inputStep (sender senderLabel : String) (i : Nat) (input : TransactionInput) :
    Option TransactionStep :=
  if truthyS input.objectId && truthyS input.coinType then
    let objectId := input.objectId.getD ""
    let coinType := input.coinType.getD ""
    some
      { id := "input-" ++ toString i
        type := .input
        title := "Provided Input"
        description := senderLabel ++ " provided " ++ strTake objectId 10 ++ "... as input"
        from? := some sender
        to? := none
        amount := none
        asset := some objectId
        assetType := some (getAssetType coinType)
        details := some coinType }
  else if truthyI input.value && truthyS input.coinType then
    let value := input.value.getD 0
    let coinType := input.coinType.getD ""
    some
      { id := "input-" ++ toString i
        type := .input
        title := "Provided Input"
        description := senderLabel ++ " provided " ++ toFixedQ (mistToSui value) 4 ++
          " " ++ popSeg coinType
        from? := some sender
        to? := none
        amount := some (toFixedQ (mistToSui value) 4 ++ " " ++ popSeg coinType)
        asset := some (orS (popSeg coinType) "Token")
        assetType := some (getAssetType coinType)
        details := none }
  else none

/-- One Move call of the `programmable` branch of `generateTransactionSteps`. -/
def callStep (sender senderLabel : String) (i : Nat) (moveCall : MoveFunctionCmd) :
    TransactionStep :=
  let funcName := jsStr moveCall.function "unknown"
  let module := jsStr moveCall.module "unknown"
  let desc := moveFuncDesc funcName
  { id := "call-" ++ toString i
    type := .action
    title := "Called " ++ module ++ "." ++ funcName
    description :=
      match desc with
      | some d => senderLabel ++ " " ++ d.action
      | none => senderLabel ++ " called " ++ module ++ "." ++ funcName
    from? := some sender
    to? := none
    amount := none
    asset := none
    assetType := none
    details := some ((desc.map (·.plainEnglish)).getD
      ("Executed " ++ module ++ "::" ++ funcName)) }

/-- One balance change rendered as an output step of the `programmable`
branch; sender-owned entries get id `output-<coinType>`, other owned entries
`output-<coinType>-<owner>`. -/
def outputStep (sender senderLabel : String) (change : BalanceChange) :
    Option TransactionStep :=
  let amount := change.amount
  if amount ≠ 0 then
    let owner := change.owner.addressOwner
    let isSender := owner == some sender
    let coinType := change.coinType
    let assetName := orS (popSeg coinType) "Token"
    let assetType := getAssetType coinType
    if isSender then
      some
        { id := "output-" ++ coinType
          type := .output
          title := "Sent " ++ toFixedQ (mistToSui |amount|) 4 ++ " " ++ assetName
          description := senderLabel ++ " sent " ++ toFixedQ (mistToSui |amount|) 4 ++
            " " ++ assetName
          from? := some sender
          to? := none
          amount := some (toFixedQ (mistToSui |amount|) 4 ++ " " ++ assetName)
          asset := some assetName
          assetType := some assetType
          details := none }
    else
      match owner with
      | some ownerAddr =>
        if ownerAddr ≠ "" then
          some
            { id := "output-" ++ coinType ++ "-" ++ ownerAddr
              type := .output
              title := "Received " ++ toFixedQ (mistToSui |amount|) 4 ++ " " ++ assetName
              description := truncateAddress ownerAddr ++ " received " ++
                toFixedQ (mistToSui |amount|) 4 ++ " " ++ assetName
              from? := none
              to? := some ownerAddr
              amount := some (toFixedQ (mistToSui |amount|) 4 ++ " " ++ assetName)
              asset := some assetName
              assetType := some assetType
              details := none }
        else none
      | none => none
  else none

/-- `generateTransactionSteps` (translationService.ts lines 258–480). -/
def generateTransactionSteps (tx : SuiTransactionResponse) : List TransactionStep :=
  let sender := getSender tx
  let type := detectShape tx
  let status := statusStr tx
  if status ≠ "success" then
    [{ id := "failed"
       type := .action
       title := "Transaction Failed"
       description := "This transaction did not complete successfully."
       from? := none, to? := none, amount := none, asset := none
       assetType := none, details := none }]
  else
    let senderLabel := truncateAddress sender
    let txData := tx.transaction.data.transaction
    let base : List TransactionStep :=
      if type = "transfer_sui" then
        let transferCmd := ((txData.transactions.getD []).head?).bind (·.transferSui)
        match transferCmd.bind (·.amount), transferCmd.bind (·.recipient) with
        | some amount, some recipient =>
          if amount ≠ 0 && recipient ≠ "" then
            [{ id := "send-sui"
               type := .transfer
               title := "Sent " ++ toFixedQ (mistToSui amount) 4 ++ " SUI"
               description := senderLabel ++ " sent " ++ toFixedQ (mistToSui amount) 4 ++ " SUI"
               from? := some sender
               to? := some recipient
               amount := some (toFixedQ (mistToSui amount) 4 ++ " SUI")
               asset := some "SUI"
               assetType := some .sui
               details := none }]
          else []
        | _, _ => []
      else if type = "pay" ∨ type = "pay_sui" then
        (txData.transactions.getD []).flatMap (payCmdSteps sender senderLabel)
      else if type = "transfer_objects" then
        (txData.transactions.getD []).flatMap (transferObjectsCmdSteps sender senderLabel)
      else if type = "programmable" then
        if txData.kind == "ProgrammableTransaction" && txData.transactions.isSome then
          (match txData.inputs with
           | some inputs => (enumIdx inputs).filterMap fun p => inputStep sender senderLabel p.1 p.2
           | none => [])
          ++ (enumIdx ((txData.transactions.getD []).filterMap (·.moveFunction))).map
              (fun p => callStep sender senderLabel p.1 p.2)
          ++ (tx.balanceChanges.getD []).filterMap (outputStep sender senderLabel)
        else []
      else []
    let gasSteps : List TransactionStep :=
      match gasUsedOpt tx with
      | some gasUsed =>
        let totalGas := gasUsed.computationCost + gasUsed.storageCost - gasUsed.storageRebate
        [{ id := "gas"
           type := .action
           title := "Paid Gas Fee"
           description := senderLabel ++ " paid " ++ toFixedQ (mistToSui totalGas) 6 ++
             " SUI in gas fees"
           from? := some sender
           to? := none
           amount := some (toFixedQ (mistToSui totalGas) 6 ++ " SUI")
           asset := some "SUI"
           assetType := some .sui
           details := none }]
      | none => []
    base ++ gasSteps

/-- `generateSummary` (translationService.ts lines 485–537). -/
def generateSummary (tx : SuiTransactionResponse) : String :=
  let sender := getSender tx
  let recipients := getRecipients tx
  let objects := getObjects tx
  let type := detectShape tx
  let status := statusStr tx
  let parts : List String :=
    ["Transaction " ++ (if status == "success" then "succeeded" else "failed"),
     "From: " ++ truncateAddress sender]
  let parts :=
    if recipients.length > 0 then
      parts ++ ["To: " ++ String.intercalate ", "
        (recipients.map (fun r => truncateAddress r.address))]
    else parts
  let parts :=
    if type = "transfer_sui" then parts ++ ["Transferred SUI coins"]
    else if type = "pay" ∨ type = "pay_sui" then
      parts ++ ["Made payment to " ++ toString recipients.length ++ " recipient" ++
        (if recipients.length ≠ 1 then "s" else "")]
    else if type = "transfer_objects" then
      parts ++ ["Transferred " ++ toString objects.length ++ " object" ++
        (if objects.length ≠ 1 then "s" else "")]
    else if type = "programmable" then parts ++ ["Executed smart contract call(s)"]
    else parts
  let created := (objects.filter (fun o => o.operation == "created")).length
  let modified := (objects.filter (fun o => o.operation == "mutated")).length
  let deleted := (objects.filter (fun o => o.operation == "deleted")).length
  let parts :=
    if created > 0 ∨ modified > 0 ∨ deleted > 0 then
      let objectParts : List String :=
        (if created > 0 then [toString created ++ " created"] else []) ++
        (if modified > 0 then [toString modified ++ " modified"] else []) ++
        (if deleted > 0 then [toString deleted ++ " deleted"] else [])
      parts ++ ["Objects: " ++ String.intercalate ", " objectParts]
    else parts
  let parts :=
    match gasUsedOpt tx with
    | some gasUsed =>
      let totalGas := gasUsed.computationCost + gasUsed.storageCost
      parts ++ ["Gas used: " ++ formatGasFee totalGas]
    | none => parts
  String.intercalate " | " parts

/-- `generatePlainEnglish` (translationService.ts lines 542–634). -/
def generatePlainEnglish (tx : SuiTransactionResponse) : String :=
  let sender := getSender tx
  let recipients := getRecipients tx
  let objects := getObjects tx
  let type := detectShape tx
  let status := statusStr tx
  if status ≠ "success" then "This transaction failed."
  else
    let senderTruncated := truncateAddress sender
    let parts? : Option (List String) :=
      if type = "transfer_sui" then
        let suiTransfer :=
          ((tx.transaction.data.transaction.transactions.getD []).head?).bind (·.transferSui)
        let base :=
          match suiTransfer.bind (·.amount) with
          | some suiAmount =>
            if suiAmount > 0 then
              [senderTruncated ++ " sent " ++ toFixedQ (mistToSui suiAmount) 4 ++ " SUI"]
            else [senderTruncated ++ " sent SUI coins"]
          | none => [senderTruncated ++ " sent SUI coins"]
        some (if recipients.length > 0 then
          base ++ ["to " ++ String.intercalate " and "
            (recipients.map (fun r => truncateAddress r.address))]
        else base)
      else if type = "pay" ∨ type = "pay_sui" then
        let base := [senderTruncated ++ " made a payment"]
        some (if recipients.length > 0 then
          base ++ ["to " ++ toString recipients.length ++ " recipient" ++
            (if recipients.length ≠ 1 then "s" else "")]
        else base)
      else if type = "transfer_objects" then
        let base := [senderTruncated ++ " transferred"]
        let base :=
          if objects.length = 1 then base ++ ["an object"]
          else if objects.length > 1 then base ++ [toString objects.length ++ " objects"]
          else base
        some (if recipients.length > 0 then
          base ++ ["to " ++ String.intercalate ", "
            (recipients.map (fun r => truncateAddress r.address))]
        else base)
      else if type = "programmable" then
        let txData := tx.transaction.data.transaction
        some (if txData.kind == "ProgrammableTransaction" && txData.transactions.isSome then
          let moveCalls := (txData.transactions.getD []).filterMap (·.moveFunction)
          match moveCalls.head? with
          | some firstCall =>
            let funcName := jsStr firstCall.function "unknown"
            let module := jsStr firstCall.module "unknown"
            let base :=
              match moveFuncDesc funcName with
              | some desc => [senderTruncated ++ " " ++ desc.action]
              | none =>
                [senderTruncated ++ " executed the " ++ module ++ "." ++ funcName ++ " function"]
            if moveCalls.length > 1 then
              base ++ ["and " ++ toString (moveCalls.length - 1) ++ " additional operation" ++
                (if moveCalls.length - 1 ≠ 1 then "s" else "")]
            else base
          | none => [senderTruncated ++ " executed smart contract calls"]
        else [])
      else none
    match parts? with
    | none => senderTruncated ++ " performed a transaction on the Sui blockchain."
    | some parts =>
      let parts :=
        match gasUsedOpt tx with
        | some gasUsed =>
          let totalGas := gasUsed.computationCost + gasUsed.storageCost - gasUsed.storageRebate
          parts ++ [", paying " ++ toFixedQ (mistToSui totalGas) 6 ++ " SUI in gas fees"]
        | none => parts
      String.intercalate " " parts ++ "."

/-- `generateObjectSummary` (translationService.ts lines 639–686). -/
def generateObjectSummary (tx : SuiTransactionResponse) : String :=
  let objects := getObjects tx
  if objects.length = 0 then "No objects were involved in this transaction."
  else
    let created := objects.filter (fun o => o.operation == "created")
    let modified := objects.filter (fun o => o.operation == "mutated")
    let deleted := objects.filter (fun o => o.operation == "deleted")
    let transferred := objects.filter (fun o => o.operation == "transferred")
    let isNftType := fun (o : TranslatedObject) =>
      strIncludes (lowerStr o.type) "nft" || strIncludes (lowerStr o.type) "collectible"
    let isCoinType := fun (o : TranslatedObject) => strIncludes (lowerStr o.type) "coin"
    let parts : List String :=
      (if created.length > 0 then
        let nfts := created.filter isNftType
        let coins := created.filter isCoinType
        let custom := created.filter (fun o => !isNftType o && !isCoinType o)
        (if nfts.length > 0 then
          [toString nfts.length ++ " new NFT" ++ (if nfts.length ≠ 1 then "s" else "") ++
            " created"] else []) ++
        (if coins.length > 0 then
          [toString coins.length ++ " new coin object" ++
            (if coins.length ≠ 1 then "s" else "") ++ " created"] else []) ++
        (if custom.length > 0 then
          [toString custom.length ++ " new custom object" ++
            (if custom.length ≠ 1 then "s" else "") ++ " created"] else [])
      else []) ++
      (if modified.length > 0 then
        [toString modified.length ++ " existing object" ++
          (if modified.length ≠ 1 then "s" else "") ++ " modified"] else []) ++
      (if transferred.length > 0 then
        [toString transferred.length ++ " object" ++
          (if transferred.length ≠ 1 then "s" else "") ++ " transferred"] else []) ++
      (if deleted.length > 0 then
        [toString deleted.length ++ " object" ++
          (if deleted.length ≠ 1 then "s" else "") ++ " deleted"] else [])
    if parts.length = 0 then
      toString objects.length ++ " object" ++
        (if objects.length ≠ 1 then "s were" else " was") ++ " involved in this transaction."
    else String.intercalate ", " parts ++ "."

/-- `generateGasSummary` (translationService.ts lines 691–727). -/
def generateGasSummary (tx : SuiTransactionResponse) : String :=
  let computationCost := gasComp tx
  let storageCost := gasStor tx
  let storageRebate := gasReb tx
  let nonRefundableStorageFee := gasNonRef tx
  let totalUsed := computationCost + storageCost
  let netFee := totalUsed - storageRebate
  let parts : List String :=
    ["Gas used: " ++ toFixedQ (mistToSui totalUsed) 6 ++ " SUI",
     "(Computation: " ++ toFixedQ (mistToSui computationCost) 6 ++ " SUI, Storage: " ++
       toFixedQ (mistToSui storageCost) 6 ++ " SUI)"] ++
    (if storageRebate > 0 then
      ["Storage rebate: +" ++ toFixedQ (mistToSui storageRebate) 6 ++
        " SUI (returned to sender)"] else []) ++
    ["Net gas fee: " ++ toFixedQ (mistToSui netFee) 6 ++ " SUI"] ++
    (if nonRefundableStorageFee > 0 then
      ["Non-refundable storage fee: " ++ toFixedQ (mistToSui nonRefundableStorageFee) 6 ++
        " SUI"] else [])
  String.intercalate "\n" parts

/-- `extractAddresses` (translationService.ts lines 732–755). -/
def extractAddresses (tx : SuiTransactionResponse) : List TranslatedAddress :=
  let sender := getSender tx
  let addresses : List TranslatedAddress :=
    [⟨sender, truncateAddress sender, "sender"⟩]
  (getRecipients tx).foldl (fun addresses recipient =>
    if (addresses.find? (fun a => a.address == recipient.address)).isSome then addresses
    else addresses ++ [⟨recipient.address, truncateAddress recipient.address, "recipient"⟩])
    addresses

/-- `extractAssets` (translationService.ts lines 760–778). -/
def extractAssets (tx : SuiTransactionResponse) : List TranslatedAsset :=
  (tx.balanceChanges.getD []).filterMap fun change =>
    if change.amount ≠ 0 then
      let isSui := change.coinType = "0x2::sui::SUI"
      some
        { type := if isSui then "coin" else "custom"
          name := if isSui then "SUI" else orS (popSeg change.coinType) "Token"
          symbol := if isSui then some "SUI" else none
          amount := mistToSui |change.amount|
          coinType := change.coinType }
    else none

/-- `extractGasInfo` (translationService.ts lines 783–810). -/
def extractGasInfo (tx : SuiTransactionResponse) : GasInfo :=
  let computationCost := gasComp tx
  let storageCost := gasStor tx
  let storageRebate := gasReb tx
  let totalUsed := computationCost + storageCost
  let netFee := totalUsed - storageRebate
  let suiPriceEstimate : ℚ := 1
  let gasFeeUSD := mistToSui netFee * suiPriceEstimate
  { gasUsed := totalUsed
    gasFee := totalUsed
    gasFeeUSD := gasFeeUSD
    storageRebate := storageRebate
    netGasFee := netFee }

/-- JS `String(x)` on a possibly-undefined string. -/
def jsString (o : Option String) : String := o.getD "undefined"

/-- `extractMoveCalls` (translationService.ts lines 815–852).  Note the lookup
key is `module_function`, unlike the plain-name key used elsewhere. -/
def extractMoveCalls (tx : SuiTransactionResponse) : List MoveCallInfo :=
  let txData := tx.transaction.data.transaction
  if txData.kind == "ProgrammableTransaction" && txData.transactions.isSome then
    (txData.transactions.getD []).filterMap fun cmd =>
      match cmd.moveFunction with
      | some func =>
        let funcName := jsString func.function
        let module := jsString func.module
        let key := module ++ "_" ++ funcName
        let desc :=
          match moveFuncDesc key with
          | some d => (d.description, d.plainEnglish)
          | none =>
            ("Custom Move function", "This executes a custom function on the Sui blockchain.")
        let args := func.arguments.getD []
        some
          { package := jsString func.package
            module := module
            function := funcName
            description := desc.1
            plainEnglish := desc.2
            arguments := args.map (fun arg =>
              { type := jsStr arg.type "unknown"
                value := jsonStringify
                  (match arg.value with
                   | some v => if truthyV (some v) then v else
                       (match arg.objectId with
                        | some o => if truthyV (some o) then o else .jstr "unknown"
                        | none => .jstr "unknown")
                   | none =>
                       (match arg.objectId with
                        | some o => if truthyV (some o) then o else .jstr "unknown"
                        | none => .jstr "unknown"))
                plainEnglish := "An argument was provided to this function." })
            typeArguments := func.typeArguments }
      | none => none
  else []

/-- `categorizeObjectType` (translationService.ts lines 883–889). -/
def categorizeObjectType (type : String) : String :=
  let lower := lowerStr type
  if strIncludes lower "nft" || strIncludes lower "collectible" ||
      strIncludes lower "collectable" then "nft"
  else if strIncludes lower "coin" || strIncludes lower "sui::sui" then "coin"
  else if strIncludes lower "package" then "package"
  else "custom"

/-- `extractObjects` (translationService.ts lines 857–878); unmatched change
kinds default to operation `created`. -/
def extractObjects (tx : SuiTransactionResponse) : List TranslatedObject :=
  (tx.objectChanges.getD []).map fun change =>
    let operation :=
      if change.type == "mutated" then "mutated"
      else if change.type == "deleted" then "deleted"
      else if change.type == "created" then "created"
      else if change.type == "transferred" then "transferred"
      else "created"
    ⟨change.objectId, change.objectType, categorizeObjectType change.objectType, operation⟩

/-- `generateEventDescription` (translationService.ts lines 907–910). -/
def generateEventDescription (event : SuiEvent) : String :=
  let eventName := orS (popSeg event.type) "Event"
  "A \"" ++ eventName ++ "\" event was emitted by the " ++ event.transactionModule ++
    " module."

/-- `extractEvents` (translationService.ts lines 894–902). -/
def extractEvents (tx : SuiTransactionResponse) : List TranslatedEvent :=
  (tx.events.getD []).map fun event =>
    ⟨event.type, event.sender, event.transactionModule,
      generateEventDescription event, generateEventDescription event⟩

/-- `generateFlowNodes` (translationService.ts lines 915–953). -/
def generateFlowNodes (tx : SuiTransactionResponse) : List FlowNode :=
  let sender := getSender tx
  let recipients := getRecipients tx
  let moveCalls := extractMoveCalls tx
  [(⟨"sender", "sender", "Sender", some sender, some (truncateAddress sender),
      none, none, none⟩ : FlowNode)]
  ++ (enumIdx recipients).map (fun p =>
      (⟨"recipient-" ++ toString p.1, "recipient", "Recipient", some p.2.address,
        some (truncateAddress p.2.address), none, none, none⟩ : FlowNode))
  ++ (if moveCalls.length > 0 then
        [(⟨"contract", "contract", "Smart Contract", none, none,
            (moveCalls.head?).map (·.package), (moveCalls.head?).map (·.module),
            none⟩ : FlowNode)]
      else [])

/-- `generateFlowEdges` (translationService.ts lines 958–1006). -/
def generateFlowEdges (tx : SuiTransactionResponse) : List FlowEdge :=
  let recipients := getRecipients tx
  let moveCalls := extractMoveCalls tx
  (if moveCalls.length > 0 then
    [(⟨"sender-contract", "sender", "contract", some "Execute", "action", none⟩ : FlowEdge)]
  else [])
  ++ (enumIdx recipients).map (fun p =>
      let type := detectShape tx
      let label :=
        if type = "transfer_sui" then "Send SUI"
        else if type = "transfer_objects" then "Transfer Object"
        else if type = "pay" ∨ type = "pay_sui" then "Payment"
        else "Transfer"
      (⟨"sender-recipient-" ++ toString p.1, "sender", "recipient-" ++ toString p.1,
        some label, "transfer", none⟩ : FlowEdge))
  ++ (if moveCalls.length > 0 ∧ recipients.length > 0 then
        (enumIdx recipients).map (fun p =>
          (⟨"contract-recipient-" ++ toString p.1, "contract",
            "recipient-" ++ toString p.1, some "Output", "result", none⟩ : FlowEdge))
      else [])

/-- `estimateUSDValue` (translationService.ts lines 1011–1029). -/
def estimateUSDValue (coinType : String) (amountMIST : Int) : ℚ :=
  let suiPriceUSD : ℚ := 1
  let lower := lowerStr coinType
  if strIncludes lower "sui::sui" || lower = "0x2::sui::sui" then
    mistToSui amountMIST * suiPriceUSD
  else if strIncludes lower "usdc" || strIncludes lower "stable" ||
      strIncludes lower "usd" then mistToSui amountMIST * 1
  else 0

/-- `getCoinSymbol` (translationService.ts lines 1034–1037). -/
def getCoinSymbol (coinType : String) : String :=
  orS (popSeg coinType) "Token"

/-- The Move-call loop of `analyzeFinancialTransaction`: the swap/mint/burn
matches `break` out of the loop, the DEX-module match updates the state and
continues. -/
def financialLoop : List MoveFunctionCmd → TransactionType × String →
    TransactionType × String
  | [], st => st
  | func :: rest, st =>
    let funcName := jsStr func.function ""
    let module := jsStr func.module ""
    if funcName = "swap" ∨ funcName = "swapExact" ∨ strIncludes funcName "swap" then
      (.swap, "Token Swap")
    else if funcName = "mint" ∨ funcName = "create" ∨ funcName = "nft::mint" then
      (.mint, "Mint / Create")
    else if funcName = "burn" ∨ funcName = "destroy" then
      (.burn, "Burn / Destroy")
    else
      let st :=
        if strIncludes module "dex" || strIncludes module "cetus" ||
            strIncludes module "turbo" || strIncludes module "deepbook" then
          if strIncludes funcName "swap" || strIncludes funcName "exchange" then
            (TransactionType.swap, "Token Swap")
          else if strIncludes funcName "add_liquidity" ||
              strIncludes funcName "remove_liquidity" then
            (TransactionType.swap, "Liquidity Operation")
          else st
        else st
      financialLoop rest st

/-- `analyzeFinancialTransaction` (translationService.ts lines 1043–1189). -/
def analyzeFinancialTransaction (tx : SuiTransactionResponse) : FinancialSummary :=
  let status := statusStr tx
  if status ≠ "success" then
    { type := .unknown
      typeDescription := "Failed transaction"
      primaryAsset := none
      secondaryAsset := none
      totalValueUSD := none
      isIncoming := false }
  else
    let balanceChanges := tx.balanceChanges.getD []
    let txData := tx.transaction.data.transaction
    let assets : List FinancialAsset := balanceChanges.filterMap fun change =>
      if change.amount ≠ 0 then
        some
          { coinType := change.coinType
            symbol := getCoinSymbol change.coinType
            name := orS (popSeg change.coinType) "Token"
            amount := mistToSui |change.amount|
            valueUSD := some (estimateUSDValue change.coinType |change.amount|) }
      else none
    let st : TransactionType × String :=
      if txData.kind == "ProgrammableTransaction" && txData.transactions.isSome then
        financialLoop ((txData.transactions.getD []).filterMap (·.moveFunction))
          (.transfer, "Transfer")
      else (.transfer, "Transfer")
    let st :=
      if txData.kind == "Single" then
        let transactions := txData.transactions.getD []
        if transactions.length = 1 then
          match transactions.head? with
          | some txCmd =>
            if txCmd.transferSui.isSome then (TransactionType.transfer, "SUI Transfer")
            else if txCmd.pay.isSome || txCmd.paySui.isSome then
              (TransactionType.transfer, "Payment")
            else if txCmd.transferObjects.isSome then
              (TransactionType.transfer, "Object Transfer")
            else st
          | none => st
        else st
      else st
    let netValueUSD : ℚ := assets.foldl (fun acc a => acc + a.valueUSD.getD 0) 0
    let recipients := getRecipients tx
    let senderSentValue := recipients.length > 0 ∧ st.1 = .transfer
    let suiAssets := assets.filter fun a =>
      strIncludes a.coinType "sui::sui" || a.symbol == "SUI"
    let otherAssets := assets.filter fun a =>
      !(strIncludes a.coinType "sui::sui") && a.symbol ≠ "SUI"
    let pair : Option FinancialAsset × Option FinancialAsset :=
      if suiAssets.length > 0 ∧ otherAssets.length > 0 then
        (otherAssets.head?, suiAssets.head?)
      else if assets.length ≥ 2 then (assets.head?, assets.get? 1)
      else if assets.length = 1 then (assets.head?, none)
      else (none, none)
    let totalValueUSD : ℚ := assets.foldl (fun sum a => sum + a.valueUSD.getD 0) 0
    { type := st.1
      typeDescription := st.2
      primaryAsset := pair.1
      secondaryAsset := pair.2
      totalValueUSD := some totalValueUSD
      isIncoming := decide (¬senderSentValue ∧ netValueUSD > 0) }

/-- `TranslatedTransaction` as populated by the translation-service
`translateTransaction` (visualization.ts; optional fields this implementation
never sets are omitted). -/
structure TranslatedTransaction where
  digest : String
  summary : String
  technicalSummary : String
  plainEnglish : String
  objectSummary : String
  gasSummary : String
  sender : TranslatedAddress
  recipients : List TranslatedAddress
  assets : List TranslatedAsset
  gasInfo : GasInfo
  moveCalls : List MoveCallInfo
  objects : List TranslatedObject
  events : List TranslatedEvent
  timestamp : Option String
  status : String
  error : Option String
  objectStats : ObjectStats
  flowNodes : List FlowNode
  flowEdges : List FlowEdge
  steps : List TransactionStep
  transactionType : TransactionType
  financialSummary : FinancialSummary
deriving Repr, DecidableEq

/-- `translateTransaction` (translationService.ts lines 1194–1236). -/
def translateTransaction (tx : SuiTransactionResponse) : TranslatedTransaction :=
  let objects := getObjects tx
  let financialSummary := analyzeFinancialTransaction tx
  let created := (objects.filter (fun o => o.operation == "created")).length
  let modified := (objects.filter (fun o => o.operation == "mutated")).length
  let deleted := (objects.filter (fun o => o.operation == "deleted")).length
  { digest := getDigest tx
    summary := generateSummary tx
    technicalSummary := "Transaction: " ++ getDigest tx ++ "\nSender: " ++ getSender tx ++
      "\nStatus: " ++ ((rawStatus tx).getD "undefined")
    plainEnglish := generatePlainEnglish tx
    objectSummary := generateObjectSummary tx
    gasSummary := generateGasSummary tx
    sender := ⟨getSender tx, truncateAddress (getSender tx), "sender"⟩
    recipients := (extractAddresses tx).filter (fun a => a.type == "recipient")
    assets := extractAssets tx
    gasInfo := extractGasInfo tx
    moveCalls := extractMoveCalls tx
    objects := extractObjects tx
    events := extractEvents tx
    timestamp := tx.timestampMs.map formatTimestamp
    status := jsStr (rawStatus tx) "success"
    error :=
      if rawStatus tx = some "failure" then (tx.effects.bind (·.status)).bind (·.error)
      else none
    objectStats :=
      ⟨created, modified, deleted,
        (objects.filter (fun o => o.operation == "transferred")).length⟩
    flowNodes := generateFlowNodes tx
    flowEdges := generateFlowEdges tx
    steps := generateTransactionSteps tx
    transactionType := financialSummary.type
    financialSummary := financialSummary }

end TS

/-- The addresses of a recipient list. -/
def recipAddrs (l : List RecipientRec) : List String := l.map (·.address)

/-- A balance change in a coin other than the native coin (the complement of
the analyzer's native-coin test). -/
def nonNative (c : BalanceChange) : Bool :=
  !(c.coinType == "0x2::sui::SUI" || c.coinType == "SUI")

/-! ## Concrete transactions used by witnesses and counterexamples -/

/-- A completely empty/default raw transaction: required scalar fields present
(as empty strings), every optional collection absent. -/
def baseTx : SuiTransactionResponse :=
  { digest := ""
    transaction := ⟨⟨"", ⟨"", none, none⟩⟩⟩
    effects := none
    events := none
    objectChanges := none
    balanceChanges := none
    timestampMs := none }

/-- Effects record of a successful execution without gas data. -/
def successEffects : EffectsRec := ⟨some ⟨"success", none⟩, none⟩

/-- Successful programmable transaction whose balance changes show one
outgoing and one incoming entry, all in the native coin. -/
def txC1 : SuiTransactionResponse :=
  { baseTx with
    transaction := ⟨⟨"0xAA", ⟨"ProgrammableTransaction", none, some []⟩⟩⟩
    effects := some successEffects
    events := some []
    objectChanges := some []
    balanceChanges := some
      [⟨⟨some "0xAA", none⟩, "0x2::sui::SUI", -5⟩,
       ⟨⟨some "0xBB", none⟩, "0x2::sui::SUI", 3⟩] }

/-- The spec's mint scenario: a single created object with an `nft` type tag
and an empty balance-change list. -/
def txC2 : SuiTransactionResponse :=
  { baseTx with
    transaction := ⟨⟨"0xAA", ⟨"ProgrammableTransaction", none, none⟩⟩⟩
    effects := some successEffects
    objectChanges := some [⟨"created", "0x2::nft::Collectible", "0xobj1"⟩]
    balanceChanges := some [] }

/-- A failed programmable transaction with no collections. -/
def txC3f : SuiTransactionResponse :=
  { baseTx with
    transaction := ⟨⟨"0xAA", ⟨"ProgrammableTransaction", none, none⟩⟩⟩
    effects := some ⟨some ⟨"failure", some "InsufficientGas"⟩, none⟩ }

/-- A successful programmable transaction with an empty command list: no Move
calls, so the enhanced flow builder emits no `processing` node while its edge
list still references `processing`. -/
def txC4 : SuiTransactionResponse :=
  { baseTx with
    transaction := ⟨⟨"0xAA", ⟨"ProgrammableTransaction", none, some []⟩⟩⟩
    effects := some successEffects }

/-- A successful `Single` transaction with one `TransferSui` recipient. -/
def txC4w : SuiTransactionResponse :=
  { baseTx with
    transaction := ⟨⟨"0xAABBCCDD11", ⟨"Single", none,
      some [{ TransactionCommand.empty with transferSui := some ⟨some "0xBB", some 5⟩ }]⟩⟩⟩
    effects := some successEffects }

/-- A successful programmable transaction with two sender-owned balance
changes in the same coin type (the step-id collision input). -/
def txC7 : SuiTransactionResponse :=
  { baseTx with
    transaction := ⟨⟨"0xAA", ⟨"ProgrammableTransaction", none, some []⟩⟩⟩
    effects := some successEffects
    balanceChanges := some
      [⟨⟨some "0xAA", none⟩, "0x2::sui::SUI", 5⟩,
       ⟨⟨some "0xAA", none⟩, "0x2::sui::SUI", 7⟩] }

/-- A transaction whose balance-change list is present and empty. -/
def txC8 : SuiTransactionResponse :=
  { baseTx with balanceChanges := some [] }

/-- A failed transaction (execution status `failure`). -/
def txC9f : SuiTransactionResponse :=
  { baseTx with effects := some ⟨some ⟨"failure", none⟩, none⟩ }

/-! ## Claim theorems -/

/-- **C1.** For every raw transaction whose classification reaches step 4 of
the decision procedure (the mint, burn and swap conditions all failed), if the
balance analysis saw at least one incoming and at least one outgoing entry and
the balance-change list involves exactly one distinct coin type, then
`detectTransactionType` returns `buy`. -/
theorem c1_reaches_step4_buy (tx : SuiTransactionResponse)
    (hm : Enhanced.mintFires tx = false)
    (hb : Enhanced.burnFires tx = false)
    (hs : Enhanced.swapFires tx = false)
    (hin : (Enhanced.analyzeBalanceChanges tx).hasIncoming = true)
    (hout : (Enhanced.analyzeBalanceChanges tx).hasOutgoing = true)
    (_hone : (((tx.balanceChanges.getD []).map (·.coinType)).dedup).length = 1) :
    Enhanced.detectTransactionType tx = .buy := by
  have hswp : Enhanced.isSwapPattern (Enhanced.analyzeBalanceChanges tx) = false := by
    unfold Enhanced.swapFires at hs
    exact (Bool.or_eq_false_iff.mp hs).2
  have hu2 : (Enhanced.analyzeBalanceChanges tx).uniqueCoinTypes < 2 := by
    by_contra hlt
    unfold Enhanced.isSwapPattern at hswp
    rw [if_neg hlt, hin, hout] at hswp
    simp at hswp
  have hu1 : (Enhanced.analyzeBalanceChanges tx).uniqueCoinTypes = 1 := by
    have hplus : (Enhanced.analyzeBalanceChanges tx).uniqueCoinTypes =
        (Enhanced.analyzeBalanceChanges tx).tokenChanges.length + 1 := rfl
    omega
  have hbuy : Enhanced.isBuyPattern (Enhanced.analyzeBalanceChanges tx) = true := by
    unfold Enhanced.isBuyPattern
    rw [hin, hout, hu1]
    simp
  unfold Enhanced.detectTransactionType
  rw [hm, hb, hs, hbuy]
  simp

/-- Witness for `c1_reaches_step4_buy` at `txC1`. -/
theorem c1_reaches_step4_buy_witness :
    Enhanced.mintFires txC1 = false ∧ Enhanced.burnFires txC1 = false ∧
    Enhanced.swapFires txC1 = false ∧
    (Enhanced.analyzeBalanceChanges txC1).hasIncoming = true ∧
    (Enhanced.analyzeBalanceChanges txC1).hasOutgoing = true ∧
    (((txC1.balanceChanges.getD []).map (·.coinType)).dedup).length = 1 ∧
    Enhanced.detectTransactionType txC1 = .buy :=
  ⟨by decide, by decide, by decide, by decide, by decide, by decide,
   c1_reaches_step4_buy txC1 (by decide) (by decide) (by decide) (by decide)
     (by decide) (by decide)⟩

/-- **C2.** Whenever the object analysis signals token-mint-like or NFT-like
creation and the balance analysis saw no incoming entry,
`detectTransactionType` returns `mint` (the first step of the procedure, so it
takes precedence over every later rule). -/
theorem c2_mint_precedence (tx : SuiTransactionResponse)
    (hsig : (Enhanced.analyzeObjectChanges tx).isTokenMint = true ∨
      (Enhanced.analyzeObjectChanges tx).isNftCreation = true)
    (hin : (Enhanced.analyzeBalanceChanges tx).hasIncoming = false) :
    Enhanced.detectTransactionType tx = .mint := by
  have hfire : Enhanced.mintFires tx = true := by
    simp only [Enhanced.mintFires]
    rcases hsig with h | h <;> simp [h, hin]
  unfold Enhanced.detectTransactionType
  rw [hfire]
  simp

/-- Witness for `c2_mint_precedence` at the spec's NFT-creation scenario. -/
theorem c2_mint_precedence_witness :
    ((Enhanced.analyzeObjectChanges txC2).isTokenMint = true ∨
      (Enhanced.analyzeObjectChanges txC2).isNftCreation = true) ∧
    (Enhanced.analyzeBalanceChanges txC2).hasIncoming = false ∧
    Enhanced.detectTransactionType txC2 = .mint :=
  ⟨Or.inl (by decide), by decide,
   c2_mint_precedence txC2 (Or.inl (by decide)) (by decide)⟩

/-- **C5.** Gas identities of both implementations: `gasFee` is computation
plus storage cost, `netGasFee` additionally subtracts the storage rebate, and
the translation-service display value (`gasFeeUSD` at the unit price estimate)
is `netGasFee` divided by the fixed minor-unit constant `1_000_000_000`. -/
theorem c5_gas_identities (tx : SuiTransactionResponse) :
    (Enhanced.translateGasInfo tx).gasFee = gasComp tx + gasStor tx ∧
    (Enhanced.translateGasInfo tx).netGasFee = gasComp tx + gasStor tx - gasReb tx ∧
    (TS.extractGasInfo tx).gasFee = gasComp tx + gasStor tx ∧
    (TS.extractGasInfo tx).netGasFee = gasComp tx + gasStor tx - gasReb tx ∧
    (TS.extractGasInfo tx).gasFeeUSD =
      ((gasComp tx + gasStor tx - gasReb tx : Int) : ℚ) / 1000000000 := by
  refine ⟨rfl, rfl, rfl, rfl, ?_⟩
  show mistToSui (gasComp tx + gasStor tx - gasReb tx) * 1 = _
  rw [mul_one]
  rfl

/-- **C7** (code bug exhibit): on a successful programmable transaction with
two sender-owned balance changes of the same coin type, the generated step
list carries the id `output-0x2::sui::SUI` twice, so the step identifiers are
not pairwise distinct. -/
theorem c7_step_id_collision :
    ¬ ((TS.generateTransactionSteps txC7).map (·.id)).Nodup := by decide

/-- The Move-call loop of the financial analyzer never produces `unknown`. -/
theorem financialLoop_ne_unknown (l : List MoveFunctionCmd)
    (st : TransactionType × String) (h : st.1 ≠ .unknown) :
    (TS.financialLoop l st).1 ≠ .unknown := by
  induction l generalizing st with
  | nil => exact h
  | cons func rest ih =>
    simp only [TS.financialLoop]
    split
    · simp
    · split
      · simp
      · split
        · simp
        · apply ih
          split
          · split
            · simp
            · split
              · simp
              · exact h
          · exact h

/-- **C3** (counterexample): the enhanced implementation does not bypass the
classifier for failure-status transactions; on a failed programmable
transaction it assigns `call`, not `unknown`. -/
theorem c3_unknown_policy_counterexample :
    statusStr txC3f ≠ "success" ∧ Enhanced.translateTransactionType txC3f = .call := by
  constructor
  · decide
  · decide

/-- **C3** (amended): in the translation-service implementation, `unknown` is
assigned exactly for non-success status; the enhanced classifier
`detectTransactionType` never returns `unknown` and runs regardless of the
status. -/
theorem c3_unknown_policy_amended (tx : SuiTransactionResponse) :
    (statusStr tx ≠ "success" → (TS.analyzeFinancialTransaction tx).type = .unknown) ∧
    (statusStr tx = "success" → (TS.analyzeFinancialTransaction tx).type ≠ .unknown) ∧
    Enhanced.detectTransactionType tx ≠ .unknown := by
  refine ⟨?_, ?_, ?_⟩
  · intro h
    unfold TS.analyzeFinancialTransaction
    rw [if_pos h]
  · intro h
    unfold TS.analyzeFinancialTransaction
    rw [if_neg (by simp [h])]
    simp only
    repeat' split
    all_goals
      first
        | exact financialLoop_ne_unknown _ _ (by simp)
        | simp
  · unfold Enhanced.detectTransactionType
    repeat' split
    all_goals simp

/-- Witness for `c3_unknown_policy_amended`: the failure implication at the
concrete failed transaction `txC9f`, the success implication at `txC1`. -/
theorem c3_unknown_policy_amended_witness :
    (TS.analyzeFinancialTransaction txC9f).type = .unknown ∧
    (TS.analyzeFinancialTransaction txC1).type ≠ .unknown ∧
    Enhanced.detectTransactionType txC1 ≠ .unknown :=
  ⟨(c3_unknown_policy_amended txC9f).1 (by decide),
   (c3_unknown_policy_amended txC1).2.1 (by decide),
   (c3_unknown_policy_amended txC1).2.2⟩

/-- **C4** (counterexample): on a successful programmable transaction with an
empty command list, the enhanced flow builder emits edges whose `processing`
endpoint names no existing node — the edge list is dangling. -/
theorem c4_flow_graph_counterexample :
    ((Enhanced.generateFlowEdges txC4 (Enhanced.detectTransactionType txC4)).all
      (fun e =>
        ((Enhanced.generateFlowNodes txC4).map (·.id)).contains e.source &&
        ((Enhanced.generateFlowNodes txC4).map (·.id)).contains e.target)) = false := by
  decide

/-- **C8** (counterexample): on a present-but-empty balance-change list the
analyzer's coin-type count field is `1`, not the number (`0`) of distinct coin
types appearing in the input. -/
theorem c8_empty_balance_counterexample :
    txC8.balanceChanges = some [] ∧
    (Enhanced.analyzeBalanceChanges txC8).uniqueCoinTypes = 1 :=
  ⟨rfl, by decide⟩

/-- **C9.** For every transaction whose execution status is not `success`,
both plain-English generators return exactly `This transaction failed.` and
the generated step sequence is the single `failed`/`action`/`Transaction
Failed` step — also as the `plainEnglish` and `steps` fields of the
translation-service output record. -/
theorem c9_failed_transaction (tx : SuiTransactionResponse)
    (h : statusStr tx ≠ "success") :
    Enhanced.generatePlainEnglish tx = "This transaction failed." ∧
    TS.generatePlainEnglish tx = "This transaction failed." ∧
    TS.generateTransactionSteps tx =
      [⟨"failed", .action, "Transaction Failed",
        "This transaction did not complete successfully.",
        none, none, none, none, none, none⟩] ∧
    (TS.translateTransaction tx).plainEnglish = "This transaction failed." ∧
    (TS.translateTransaction tx).steps =
      [⟨"failed", .action, "Transaction Failed",
        "This transaction did not complete successfully.",
        none, none, none, none, none, none⟩] := by
  have h1 : Enhanced.generatePlainEnglish tx = "This transaction failed." := by
    unfold Enhanced.generatePlainEnglish
    rw [if_pos h]
  have h2 : TS.generatePlainEnglish tx = "This transaction failed." := by
    unfold TS.generatePlainEnglish
    rw [if_pos h]
  have h3 : TS.generateTransactionSteps tx =
      [⟨"failed", .action, "Transaction Failed",
        "This transaction did not complete successfully.",
        none, none, none, none, none, none⟩] := by
    unfold TS.generateTransactionSteps
    rw [if_pos h]
  exact ⟨h1, h2, h3, h2, h3⟩

/-- Witness for `c9_failed_transaction` at the concrete failed transaction. -/
theorem c9_failed_transaction_witness :
    statusStr txC9f ≠ "success" ∧
    Enhanced.generatePlainEnglish txC9f = "This transaction failed." ∧
    (TS.translateTransaction txC9f).steps =
      [⟨"failed", .action, "Transaction Failed",
        "This transaction did not complete successfully.",
        none, none, none, none, none, none⟩] :=
  ⟨by decide, (c9_failed_transaction txC9f (by decide)).1,
   (c9_failed_transaction txC9f (by decide)).2.2.2.2⟩

/-! ## Helper lemmas -/

/-- A fold preserves any invariant its step function preserves. -/
theorem foldl_preserve {σ α : Type _} (f : σ → α → σ) (P : σ → Prop)
    (hstep : ∀ s a, P s → P (f s a)) :
    ∀ (l : List α) (s : σ), P s → P (l.foldl f s)
  | [], _, h => h
  | a :: l, s, h => foldl_preserve f P hstep l (f s a) (hstep s a h)

/-- Every index below the length appears, with its element, in the indexed
enumeration. -/
theorem mem_enumFromIdx {α : Type _} :
    ∀ (l : List α) (n i : Nat) (h : i < l.length),
      (n + i, l.get ⟨i, h⟩) ∈ enumFromIdx n l
  | _ :: _, _, 0, _ => by simp [enumFromIdx]
  | _ :: t, n, i + 1, h => by
    have hrec := mem_enumFromIdx t (n + 1) i (Nat.lt_of_succ_lt_succ h)
    have hn : n + (i + 1) = (n + 1) + i := by omega
    simp only [enumFromIdx, List.mem_cons, List.get]
    right
    rw [hn]
    exact hrec

/-- Appending a recipient whose address the `find?`-based duplicate check did
not locate preserves distinctness of the address list. -/
theorem recipAddrs_append_nodup (acc : List RecipientRec) (x : RecipientRec)
    (hfind : acc.find? (fun r => r.address == x.address) = none)
    (h : (recipAddrs acc).Nodup) : (recipAddrs (acc ++ [x])).Nodup := by
  have hx : x.address ∉ recipAddrs acc := by
    intro hmem
    rcases List.mem_map.mp hmem with ⟨r, hr, hra⟩
    have := List.find?_eq_none.mp hfind r hr
    simp [hra] at this
  have hcons : (x.address :: recipAddrs acc).Nodup := List.nodup_cons.mpr ⟨hx, h⟩
  unfold recipAddrs at hcons ⊢
  rw [List.map_append, List.nodup_append_comm]
  exact hcons

/-- The balance-change phase of the enhanced `getRecipients` preserves address
distinctness. -/
theorem recipStepE_nodup (sender : String) (acc : List RecipientRec)
    (c : BalanceChange) (h : (recipAddrs acc).Nodup) :
    (recipAddrs (Enhanced.recipStep sender acc c)).Nodup := by
  unfold Enhanced.recipStep
  split
  · next a _ =>
    split_ifs with h1 h2
    · exact h
    · refine recipAddrs_append_nodup _ _ ?_ h
      cases hfe : acc.find? (fun r => r.address == a) with
      | none => rfl
      | some v => rw [hfe] at h2; simp at h2
    · exact h
  · exact h

/-- The `TransferSui` phase of the enhanced `getRecipients` preserves address
distinctness. -/
theorem suiRecipStepE_nodup (acc : List RecipientRec) (cmd : TransactionCommand)
    (h : (recipAddrs acc).Nodup) :
    (recipAddrs (Enhanced.suiRecipStep acc cmd)).Nodup := by
  unfold Enhanced.suiRecipStep
  split
  · split
    · next r _ =>
      split_ifs with h1
      · refine recipAddrs_append_nodup _ _ ?_ h
        have h2 := (Bool.and_eq_true _ _).mp h1 |>.2
        exact Option.isNone_iff_eq_none.mp h2
      · exact h
    · exact h
  · exact h

/-- The balance-change phase of the translation-service `getRecipients`
preserves address distinctness. -/
theorem recipStepT_nodup (sender : String) (acc : List RecipientRec)
    (c : BalanceChange) (h : (recipAddrs acc).Nodup) :
    (recipAddrs (TS.recipStep sender acc c)).Nodup := by
  unfold TS.recipStep
  split
  · next a _ =>
    split_ifs with h1 h2
    · exact h
    · refine recipAddrs_append_nodup _ _ ?_ h
      cases hfe : acc.find? (fun r => r.address == a) with
      | none => rfl
      | some v => rw [hfe] at h2; simp at h2
    · exact h
  · exact h

/-- The `TransferSui` block of the translation-service command loop preserves
address distinctness. -/
theorem suiRecipPart_nodup (acc : List RecipientRec) (cmd : TransactionCommand)
    (h : (recipAddrs acc).Nodup) :
    (recipAddrs (TS.suiRecipPart acc cmd)).Nodup := by
  unfold TS.suiRecipPart
  split
  · split
    · next r _ =>
      split_ifs with h1
      · refine recipAddrs_append_nodup _ _ ?_ h
        have h2 := (Bool.and_eq_true _ _).mp h1 |>.2
        exact Option.isNone_iff_eq_none.mp h2
      · exact h
    · exact h
  · exact h

/-- The `TransferObjects` block of the translation-service command loop
preserves address distinctness. -/
theorem objRecipPart_nodup (acc : List RecipientRec) (cmd : TransactionCommand)
    (h : (recipAddrs acc).Nodup) :
    (recipAddrs (TS.objRecipPart acc cmd)).Nodup := by
  unfold TS.objRecipPart
  split
  · split
    · next r _ _ _ =>
      split_ifs with h1
      · refine foldl_preserve _ (fun l => (recipAddrs l).Nodup) ?_ _ _ h
        intro s obj hs
        split_ifs with h2
        · exact recipAddrs_append_nodup _ _ (Option.isNone_iff_eq_none.mp h2) hs
        · exact hs
      · exact h
    · exact h
  · exact h

/-- **C6.** Neither implementation's recipient list ever contains two entries
with the same address. -/
theorem c6_recipient_dedup (tx : SuiTransactionResponse) :
    (recipAddrs (Enhanced.getRecipients tx)).Nodup ∧
    (recipAddrs (TS.getRecipients tx)).Nodup := by
  constructor
  · unfold Enhanced.getRecipients
    simp only
    have h1 := foldl_preserve (Enhanced.recipStep (Enhanced.getSender tx))
      (fun l => (recipAddrs l).Nodup)
      (fun s a hs => recipStepE_nodup _ s a hs)
      (tx.balanceChanges.getD []) [] (by simp [recipAddrs])
    split
    · exact foldl_preserve _ _ (fun s a hs => suiRecipStepE_nodup s a hs) _ _ h1
    · exact h1
  · unfold TS.getRecipients
    simp only
    have h1 := foldl_preserve (TS.recipStep (TS.getSender tx))
      (fun l => (recipAddrs l).Nodup)
      (fun s a hs => recipStepT_nodup _ s a hs)
      (tx.balanceChanges.getD []) [] (by simp [recipAddrs])
    split
    · refine foldl_preserve _ (fun l => (recipAddrs l).Nodup) ?_ _ _ h1
      intro s a hs
      exact objRecipPart_nodup _ _ (suiRecipPart_nodup _ _ hs)
    · exact h1

/-- `mapSet` keeps the key list unchanged when the key is present and appends
it otherwise. -/
theorem mapSet_keys (m : List (String × Int)) (k : String) (v : Int) :
    (Enhanced.mapSet m k v).map Prod.fst =
      if k ∈ m.map Prod.fst then m.map Prod.fst else m.map Prod.fst ++ [k] := by
  induction m with
  | nil => simp [Enhanced.mapSet]
  | cons p t ih =>
    obtain ⟨k', v'⟩ := p
    by_cases hk : k' = k
    · subst hk
      simp [Enhanced.mapSet]
    · simp only [Enhanced.mapSet, beq_iff_eq, if_neg hk, List.map_cons]
      rw [ih]
      by_cases hm : k ∈ t.map Prod.fst
      · simp [hm, Ne.symm hk]
      · simp [hm, Ne.symm hk]

/-- `mapSet` preserves distinctness of the key list. -/
theorem mapSet_keys_nodup (m : List (String × Int)) (k : String) (v : Int)
    (h : (m.map Prod.fst).Nodup) : ((Enhanced.mapSet m k v).map Prod.fst).Nodup := by
  rw [mapSet_keys]
  split_ifs with hm
  · exact h
  · rw [List.nodup_append_comm]
    exact List.nodup_cons.mpr ⟨hm, h⟩

/-- The key set after `mapSet` is the old key set with the key inserted. -/
theorem mapSet_keys_toFinset (m : List (String × Int)) (k : String) (v : Int) :
    ((Enhanced.mapSet m k v).map Prod.fst).toFinset =
      insert k (m.map Prod.fst).toFinset := by
  rw [mapSet_keys]
  split_ifs with hm
  · exact (Finset.insert_eq_self.mpr (List.mem_toFinset.mpr hm)).symm
  · have hk : ([k] : List String).toFinset = {k} := by simp
    rw [List.toFinset_append, hk, Finset.union_comm, ← Finset.insert_eq]

/-- The token-change map of one analyzer step: unchanged on native-coin
entries, `mapSet` on the rest. -/
theorem bcStep_tokenChanges (sender : String) (st : Enhanced.BCState)
    (c : BalanceChange) :
    (Enhanced.bcStep sender st c).tokenChanges =
      if c.coinType == "0x2::sui::SUI" || c.coinType == "SUI" then st.tokenChanges
      else Enhanced.mapSet st.tokenChanges c.coinType
        (Enhanced.mapGetD st.tokenChanges c.coinType + c.amount) := by
  simp only [Enhanced.bcStep]
  split <;> rfl

/-- The analyzer fold keeps the token-change key list duplicate-free. -/
theorem bcFold_keys_nodup (sender : String) (l : List BalanceChange)
    (st : Enhanced.BCState) (h : (st.tokenChanges.map Prod.fst).Nodup) :
    (((l.foldl (Enhanced.bcStep sender) st).tokenChanges).map Prod.fst).Nodup := by
  refine foldl_preserve _ (fun s => (s.tokenChanges.map Prod.fst).Nodup) ?_ l st h
  intro s c hs
  rw [bcStep_tokenChanges]
  split_ifs
  · exact hs
  · exact mapSet_keys_nodup _ _ _ hs

/-- The key set of the analyzer fold is the initial key set together with the
coin types of the non-native entries. -/
theorem bcFold_keys_toFinset (sender : String) :
    ∀ (l : List BalanceChange) (st : Enhanced.BCState),
      (((l.foldl (Enhanced.bcStep sender) st).tokenChanges).map Prod.fst).toFinset =
        (st.tokenChanges.map Prod.fst).toFinset ∪
          ((l.filter nonNative).map (·.coinType)).toFinset := by
  intro l
  induction l with
  | nil => simp
  | cons c t ih =>
    intro st
    rw [List.foldl_cons, ih]
    by_cases hnat : (c.coinType == "0x2::sui::SUI" || c.coinType == "SUI") = true
    · have hne : nonNative c = false := by simp [nonNative, hnat]
      rw [show (Enhanced.bcStep sender st c).tokenChanges = st.tokenChanges from by
        rw [bcStep_tokenChanges, if_pos hnat]]
      simp [List.filter_cons, hne]
    · have hne : nonNative c = true := by
        simp only [nonNative, Bool.not_eq_true']
        exact Bool.not_eq_true _ ▸ (by simpa using hnat)
      rw [show (Enhanced.bcStep sender st c).tokenChanges =
          Enhanced.mapSet st.tokenChanges c.coinType
            (Enhanced.mapGetD st.tokenChanges c.coinType + c.amount) from by
        rw [bcStep_tokenChanges, if_neg hnat]]
      rw [mapSet_keys_toFinset]
      simp [List.filter_cons, hne, Finset.insert_union, Finset.union_insert]

/-- **C8** (amended): on an empty (or absent) balance-change list the analyzer
returns the zero analysis except that the coin-type count field is `1`; in
general that field is one more than the number of distinct non-native coin
types in the list (the implementation always counts the native coin). -/
theorem c8_empty_balance_amended (tx : SuiTransactionResponse) :
    (tx.balanceChanges.getD [] = [] →
      Enhanced.analyzeBalanceChanges tx = ⟨0, [], false, false, 1, 0⟩) ∧
    (Enhanced.analyzeBalanceChanges tx).uniqueCoinTypes =
      ((((tx.balanceChanges.getD []).filter nonNative).map (·.coinType)).dedup).length
        + 1 := by
  constructor
  · intro h
    unfold Enhanced.analyzeBalanceChanges
    rw [h]
    rfl
  · have hrfl : (Enhanced.analyzeBalanceChanges tx).uniqueCoinTypes =
        (((tx.balanceChanges.getD []).foldl
          (Enhanced.bcStep tx.transaction.data.sender)
          ⟨0, [], false, false, 0⟩).tokenChanges).length + 1 := rfl
    rw [hrfl]
    congr 1
    have hnd := bcFold_keys_nodup tx.transaction.data.sender
      (tx.balanceChanges.getD []) ⟨0, [], false, false, 0⟩ (by simp)
    have hfs := bcFold_keys_toFinset tx.transaction.data.sender
      (tx.balanceChanges.getD []) ⟨0, [], false, false, 0⟩
    have hlen : (((tx.balanceChanges.getD []).foldl
        (Enhanced.bcStep tx.transaction.data.sender)
        ⟨0, [], false, false, 0⟩).tokenChanges).length =
        ((((tx.balanceChanges.getD []).foldl
          (Enhanced.bcStep tx.transaction.data.sender)
          ⟨0, [], false, false, 0⟩).tokenChanges).map Prod.fst).length := by
      rw [List.length_map]
    rw [hlen, ← List.toFinset_card_of_nodup hnd, hfs]
    simp [List.card_toFinset]

/-- Witness for `c8_empty_balance_amended` at the empty balance-change list. -/
theorem c8_empty_balance_amended_witness :
    Enhanced.analyzeBalanceChanges txC8 = ⟨0, [], false, false, 1, 0⟩ ∧
    (Enhanced.analyzeBalanceChanges txC8).uniqueCoinTypes =
      ((((txC8.balanceChanges.getD []).filter nonNative).map (·.coinType)).dedup).length
        + 1 :=
  ⟨(c8_empty_balance_amended txC8).1 rfl, (c8_empty_balance_amended txC8).2⟩

/-- The id list of the enhanced flow nodes in closed form. -/
theorem flowNodeIds (tx : SuiTransactionResponse) :
    (Enhanced.generateFlowNodes tx).map (·.id) =
      ["sender", "initiation", "verification"]
      ++ (if (Enhanced.parseMoveCalls tx).length > 0 then ["processing"]
          else if tx.transaction.data.transaction.kind == "Single" then ["processing"]
          else [])
      ++ ["confirmation"]
      ++ (if (Enhanced.getRecipients tx).length > 0 then
            "completion" :: (enumIdx (Enhanced.getRecipients tx)).map
              (fun p => "recipient-" ++ toString p.1)
          else []) := by
  unfold Enhanced.generateFlowNodes
  simp only [List.map_append, apply_ite (List.map (fun n => FlowNode.id n)),
    List.map_cons, List.map_nil, List.map_map]
  rfl

/-- **C4** (amended): the enhanced flow graph always contains a `sender` node
and one `completion → recipient-i` edge per recipient index; and provided the
`processing` node is generated at all (at least one parsed Move call, or
transaction kind `Single`), every edge endpoint names an existing node.  (The
counterexample shows the processing edges dangle in the remaining case.) -/
theorem c4_flow_graph_amended (tx : SuiTransactionResponse) (ty : TransactionType) :
    "sender" ∈ (Enhanced.generateFlowNodes tx).map (·.id) ∧
    (∀ i, i < (Enhanced.getRecipients tx).length →
      ∃ e ∈ Enhanced.generateFlowEdges tx ty,
        e.source = "completion" ∧ e.target = "recipient-" ++ toString i) ∧
    ((Enhanced.parseMoveCalls tx ≠ [] ∨ tx.transaction.data.transaction.kind = "Single") →
      ∀ e ∈ Enhanced.generateFlowEdges tx ty,
        e.source ∈ (Enhanced.generateFlowNodes tx).map (·.id) ∧
        e.target ∈ (Enhanced.generateFlowNodes tx).map (·.id)) := by
  have hids := flowNodeIds tx
  refine ⟨?_, ?_, ?_⟩
  · rw [hids]; simp
  · intro i h
    have hpos : 0 < (Enhanced.getRecipients tx).length :=
      Nat.lt_of_le_of_lt (Nat.zero_le i) h
    have hmem := mem_enumFromIdx (Enhanced.getRecipients tx) 0 i h
    rw [Nat.zero_add] at hmem
    refine ⟨⟨"completion-recipient-" ++ toString i, "completion",
      "recipient-" ++ toString i, some (Enhanced.transferLabelFor ty), "transfer",
      some true⟩, ?_, rfl, rfl⟩
    unfold Enhanced.generateFlowEdges
    simp only
    refine List.mem_append.mpr (Or.inr ?_)
    rw [if_pos hpos]
    refine List.mem_cons.mpr (Or.inr ?_)
    exact List.mem_map.mpr
      ⟨(i, (Enhanced.getRecipients tx).get ⟨i, h⟩), hmem, rfl⟩
  · intro hproc e he
    have hsender : "sender" ∈ (Enhanced.generateFlowNodes tx).map (·.id) := by
      rw [hids]; simp
    have hinit : "initiation" ∈ (Enhanced.generateFlowNodes tx).map (·.id) := by
      rw [hids]; simp
    have hverif : "verification" ∈ (Enhanced.generateFlowNodes tx).map (·.id) := by
      rw [hids]; simp
    have hconf : "confirmation" ∈ (Enhanced.generateFlowNodes tx).map (·.id) := by
      rw [hids]; simp
    have hprocN : "processing" ∈ (Enhanced.generateFlowNodes tx).map (·.id) := by
      rw [hids]
      rcases hproc with hmc | hkind
      · rw [if_pos (List.length_pos.mpr hmc)]; simp
      · by_cases hmc : (Enhanced.parseMoveCalls tx).length > 0
        · rw [if_pos hmc]; simp
        · rw [if_neg hmc, if_pos (by simp [hkind])]; simp
    unfold Enhanced.generateFlowEdges at he
    simp only at he
    rcases List.mem_append.mp he with h4 | hrest
    · simp only [List.mem_cons, List.mem_singleton] at h4
      rcases h4 with rfl | rfl | rfl | rfl | habs
      · exact ⟨hsender, hinit⟩
      · exact ⟨hinit, hverif⟩
      · exact ⟨hverif, hprocN⟩
      · exact ⟨hprocN, hconf⟩
      · cases habs
    · by_cases hn : 0 < (Enhanced.getRecipients tx).length
      · rw [if_pos hn] at hrest
        have hcompl : "completion" ∈ (Enhanced.generateFlowNodes tx).map (·.id) := by
          rw [hids, if_pos hn]; simp
        rcases List.mem_cons.mp hrest with rfl | hmap
        · exact ⟨hconf, hcompl⟩
        · obtain ⟨p, hp, rfl⟩ := List.mem_map.mp hmap
          refine ⟨hcompl, ?_⟩
          rw [hids, if_pos hn]
          refine List.mem_append.mpr (Or.inr ?_)
          refine List.mem_cons.mpr (Or.inr ?_)
          exact List.mem_map.mpr ⟨p, hp, rfl⟩
      · rw [if_neg hn] at hrest
        cases hrest

/-- Witness for `c4_flow_graph_amended` at a `Single`-kind transfer with one
recipient. -/
theorem c4_flow_graph_amended_witness :
    "sender" ∈ (Enhanced.generateFlowNodes txC4w).map (·.id) ∧
    (∃ e ∈ Enhanced.generateFlowEdges txC4w .transfer,
      e.source = "completion" ∧ e.target = "recipient-" ++ toString 0) ∧
    (∀ e ∈ Enhanced.generateFlowEdges txC4w .transfer,
      e.source ∈ (Enhanced.generateFlowNodes txC4w).map (·.id) ∧
      e.target ∈ (Enhanced.generateFlowNodes txC4w).map (·.id)) :=
  ⟨(c4_flow_graph_amended txC4w .transfer).1,
   (c4_flow_graph_amended txC4w .transfer).2.1 0 (by decide),
   (c4_flow_graph_amended txC4w .transfer).2.2 (Or.inr rfl)⟩

/-- **C10.** Absent balance-change, object-change and event collections are
interchangeable with explicitly empty ones throughout the translation-service
pipeline and the enhanced analyzers/builders; an absent effects record yields
the all-zero gas figures; and the completely empty/default transaction still
yields a translated record (the embedding is total, so no error path exists).
-/
theorem c10_default_tolerance (tx : SuiTransactionResponse) (ty : TransactionType) :
    TS.translateTransaction
        { tx with balanceChanges := none, objectChanges := none, events := none } =
      TS.translateTransaction
        { tx with balanceChanges := some [], objectChanges := some [],
                  events := some [] } ∧
    Enhanced.analyzeBalanceChanges { tx with balanceChanges := none } =
      Enhanced.analyzeBalanceChanges { tx with balanceChanges := some [] } ∧
    Enhanced.analyzeObjectChanges { tx with objectChanges := none } =
      Enhanced.analyzeObjectChanges { tx with objectChanges := some [] } ∧
    Enhanced.analyzeEvents { tx with events := none } =
      Enhanced.analyzeEvents { tx with events := some [] } ∧
    Enhanced.detectTransactionType
        { tx with balanceChanges := none, objectChanges := none, events := none } =
      Enhanced.detectTransactionType
        { tx with balanceChanges := some [], objectChanges := some [],
                  events := some [] } ∧
    Enhanced.getRecipients { tx with balanceChanges := none } =
      Enhanced.getRecipients { tx with balanceChanges := some [] } ∧
    Enhanced.generatePlainEnglish
        { tx with balanceChanges := none, objectChanges := none, events := none } =
      Enhanced.generatePlainEnglish
        { tx with balanceChanges := some [], objectChanges := some [],
                  events := some [] } ∧
    Enhanced.generateFlowNodes
        { tx with balanceChanges := none, objectChanges := none, events := none } =
      Enhanced.generateFlowNodes
        { tx with balanceChanges := some [], objectChanges := some [],
                  events := some [] } ∧
    Enhanced.generateFlowEdges
        { tx with balanceChanges := none, objectChanges := none, events := none } ty =
      Enhanced.generateFlowEdges
        { tx with balanceChanges := some [], objectChanges := some [],
                  events := some [] } ty ∧
    TS.extractGasInfo { tx with effects := none } = ⟨0, 0, 0, 0, 0⟩ ∧
    Enhanced.translateGasInfo { tx with effects := none } = ⟨0, 0, 0, 0, 0⟩ ∧
    (TS.translateTransaction baseTx).transactionType = .unknown ∧
    (TS.translateTransaction baseTx).recipients = [] ∧
    (TS.translateTransaction baseTx).gasInfo = ⟨0, 0, 0, 0, 0⟩ := by
  refine ⟨rfl, rfl, rfl, rfl, rfl, rfl, rfl, rfl, rfl, ?_, ?_, ?_, by decide, ?_⟩
  · show GasInfo.mk 0 0 (mistToSui 0 * 1) 0 0 = ⟨0, 0, 0, 0, 0⟩
    norm_num [mistToSui]
  · rfl
  · show (TS.analyzeFinancialTransaction baseTx).type = .unknown
    unfold TS.analyzeFinancialTransaction
    rw [if_pos (by decide : statusStr baseTx ≠ "success")]
  · show TS.extractGasInfo baseTx = ⟨0, 0, 0, 0, 0⟩
    show GasInfo.mk 0 0 (mistToSui 0 * 1) 0 0 = ⟨0, 0, 0, 0, 0⟩
    norm_num [mistToSui]
